import Mathlib

/-!
Verification of the affirmation-posting pipeline.

This file gives a shallow embedding, in Lean, of the parts of the Python
sources that the specification's claims are about:

* the Instagram asynchronous publish protocol (`post_to_instagram`) in its
  four variants (`post_to_social.py`, `post_affirmation_video.py`,
  `post_sunset_affirmation_video.py`, `generate_affirmation_video.py`,
  and the carousel per-child polling loop of `generate_swipeable_post.py`);
* the affirmation length validation/truncation of
  `generate_swipeable_post.py` / `generate_darkSunset_5sec.py` and the
  log-only validation of `generate_sunset_affirmation_video.py`;
* the vertical text layout arithmetic of `create_affirmation_clips` /
  `create_affirmation_image`;
* the caption builders (`get_caption`) of `post_affirmation_video.py` and
  `generate_darkSunset_5sec.py` / `generate_swipeable_post.py`;
* the content generators (`generate_themed_affirmations`,
  `generate_affirmations_and_caption`) and their fallback behaviour;
* the Flask route `generate_post` of `app.py`;
* the S3 staging helpers (`upload_to_s3`).

External effects (HTTP requests, `time.sleep`, logging) are modelled by an
explicit event trace; the remote side (Graph API responses, the OpenAI
capability, environment variables) is an explicit environment/oracle
argument.  Python strings are modelled as `List Char`; machine text
statuses that are only compared for equality use `String`.
-/

set_option maxRecDepth 8000

namespace AffirmationPosting

/-- Result of a Graph-API `GET {creation_id}?fields=status_code[,status]`
call, as the Python code observes it: the HTTP status code of the response
and the optional `status_code` field of its JSON body
(`status_data.get('status_code')`). -/
structure StatusResp where
  httpStatus : Nat
  statusCode : Option String
deriving Repr, DecidableEq

/-- Result of a Graph-API POST (`/media` container creation or
`/media_publish`): the HTTP status code and the optional `id` field of the
JSON body. -/
structure IdResp where
  httpStatus : Nat
  idField : Option String
deriving Repr, DecidableEq

/-- The environment an Instagram publisher run observes: the relevant
`os.getenv` values, the Instagram business-account lookup, the S3 upload
outcome, the container-creation response, the status response of the i-th
poll, and the `media_publish` response. -/
structure IGEnv where
  pageId : Option String
  accessToken : Option String
  igAccount : Option String
  s3Url : Option String
  containerResp : IdResp
  statusResp : Nat → StatusResp
  publishResp : IdResp

/-- Observable events of a publisher run, in order: the account-id GET,
the S3 upload, the container POST, each status-poll GET, each
`time.sleep(seconds)`, the `media_publish` POST, and the two log lines the
claims mention (success with post id, and the timeout error). -/
inductive IGEv where
  | getAccountId
  | s3Upload
  | containerPost
  | pollGet
  | sleep (seconds : Nat)
  | publishPost
  | logSuccess (postId : String)
  | logTimeout
deriving Repr, DecidableEq

/-- Python truthiness of an optional string (`if not x`): `None` and the
empty string are falsy. -/
def truthy : Option String → Bool
  | none => false
  | some s => !s.isEmpty

def isPollGet : IGEv → Bool
  | .pollGet => true
  | _ => false

def isPublishPost : IGEv → Bool
  | .publishPost => true
  | _ => false

/-- Number of status-poll GET requests in a trace. -/
def pollCount (tr : List IGEv) : Nat := tr.countP isPollGet

/-- Number of `media_publish` POST requests in a trace. -/
def publishCount (tr : List IGEv) : Nat := tr.countP isPublishPost

/-- The trace fragment of `n` unsuccessful poll iterations that each poll
once and then sleep `d` seconds. -/
def pollSleepBlocks (d n : Nat) : List IGEv :=
  (List.replicate n [IGEv.pollGet, IGEv.sleep d]).flatten

/-- The trace fragment of `n` iterations of the swipeable per-child loop,
each of which sleeps `d` seconds and then polls once. -/
def sleepPollBlocks (d n : Nat) : List IGEv :=
  (List.replicate n [IGEv.sleep d, IGEv.pollGet]).flatten

namespace postToSocial

/-- Polling loop of `post_to_social.py` `post_to_instagram` (lines
186-213), with `n` remaining attempts of the `for _ in range(30)` loop and
`i` the index of the next poll.  Each iteration GETs `status_code`; if it
equals `FINISHED` the publish POST is issued at once and the function
returns on the publish response's `id` field; otherwise the loop sleeps 10
seconds and retries.  There is no `ERROR` branch in this variant.  After
the loop the code logs "Media processing timed out" and returns `False`. -/
def pollLoop (env : IGEnv) : Nat → Nat → Bool × List IGEv
  | 0, _ => (false, [IGEv.logTimeout])
  | n + 1, i =>
    let sr := env.statusResp i
    if sr.statusCode = some "FINISHED" then
      match env.publishResp.idField with
      | some pid => (true, [IGEv.pollGet, IGEv.publishPost, IGEv.logSuccess pid])
      | none => (false, [IGEv.pollGet, IGEv.publishPost])
    else
      let r := pollLoop env n (i + 1)
      (r.1, IGEv.pollGet :: IGEv.sleep 10 :: r.2)

/-- `post_to_social.py` `post_to_instagram`: checks the page id and access
token, looks up the Instagram account id, uploads to S3, creates the media
container (checking only for an `id` field in the JSON), then runs the
30-attempt polling loop. -/
def post_to_instagram (env : IGEnv) : Bool × List IGEv :=
  if truthy env.pageId && truthy env.accessToken then
    if truthy env.igAccount then
      if truthy env.s3Url then
        match env.containerResp.idField with
        | none => (false, [IGEv.getAccountId, IGEv.s3Upload, IGEv.containerPost])
        | some _ =>
          let r := pollLoop env 30 0
          (r.1, IGEv.getAccountId :: IGEv.s3Upload :: IGEv.containerPost :: r.2)
      else (false, [IGEv.getAccountId, IGEv.s3Upload])
    else (false, [IGEv.getAccountId])
  else (false, [])

end postToSocial

/-- How a status-polling loop was left in the variants that separate
polling from publication: `errored` models a `return False` from inside
the loop, `proceed` models both `break` on `FINISHED` and falling out of
the loop after the last attempt (both continue to the publish step). -/
inductive PollExit where
  | errored
  | proceed
deriving Repr, DecidableEq

/-- The publish step shared (textually identical) by
`post_affirmation_video.py`, `post_sunset_affirmation_video.py` and
`generate_affirmation_video.py`: if the polling loop returned `False`
the publisher stops with that failure; otherwise — whether the loop
broke on `FINISHED` or exhausted its attempts — the `media_publish`
POST is issued, and the result is success exactly when it answers HTTP
200 with an `id` field (which is logged). -/
def publishStep (pre : List IGEv) (r : PollExit × List IGEv) (resp : IdResp) :
    Bool × List IGEv :=
  match r.1 with
  | .errored => (false, pre ++ r.2)
  | .proceed =>
    if resp.httpStatus = 200 then
      match resp.idField with
      | some pid => (true, pre ++ r.2 ++ [IGEv.publishPost, IGEv.logSuccess pid])
      | none => (false, pre ++ r.2 ++ [IGEv.publishPost])
    else (false, pre ++ r.2 ++ [IGEv.publishPost])

namespace postAffirmationVideo

/-- Polling loop of `post_affirmation_video.py` `post_to_instagram`
(lines 234-256): up to 30 attempts, `FINISHED` breaks out (to the publish
step), `ERROR` returns `False` at once, anything else sleeps 10 seconds.
The HTTP status of the poll response is not checked.  Note: when the 30
attempts run out without `FINISHED`, the loop simply ends and the code
continues with the publish step. -/
def pollLoop (env : IGEnv) : Nat → Nat → PollExit × List IGEv
  | 0, _ => (.proceed, [])
  | n + 1, i =>
    let sr := env.statusResp i
    if sr.statusCode = some "FINISHED" then (.proceed, [IGEv.pollGet])
    else if sr.statusCode = some "ERROR" then (.errored, [IGEv.pollGet])
    else
      let r := pollLoop env n (i + 1)
      (r.1, IGEv.pollGet :: IGEv.sleep 10 :: r.2)

/-- `post_affirmation_video.py` `post_to_instagram` (lines 184-284):
account lookup, S3 upload, container creation (HTTP 200 and `id`
required), the 30-attempt loop above, then — whether the loop broke on
`FINISHED` or exhausted its attempts — the `media_publish` POST, whose
HTTP status and `id` field decide the result.  The page id and access
token are read but not checked in this variant. -/
def post_to_instagram (env : IGEnv) : Bool × List IGEv :=
  if truthy env.igAccount then
    if truthy env.s3Url then
      if env.containerResp.httpStatus = 200 then
        match env.containerResp.idField with
        | none => (false, [IGEv.getAccountId, IGEv.s3Upload, IGEv.containerPost])
        | some _ =>
          publishStep [IGEv.getAccountId, IGEv.s3Upload, IGEv.containerPost]
            (pollLoop env 30 0) env.publishResp
      else (false, [IGEv.getAccountId, IGEv.s3Upload, IGEv.containerPost])
    else (false, [IGEv.getAccountId, IGEv.s3Upload])
  else (false, [IGEv.getAccountId])

end postAffirmationVideo

namespace postSunset

/-- `post_sunset_affirmation_video.py` `post_to_instagram` (lines
325-425) is textually identical to the `post_affirmation_video.py`
variant (same guards, same 30-attempt loop with 10-second sleeps, same
fall-through to the publish step), so it is embedded as the same
function. -/
def post_to_instagram : IGEnv → Bool × List IGEv :=
  postAffirmationVideo.post_to_instagram

end postSunset

/-- The environment of `generate_affirmation_video.py` `post_to_instagram`
(lines 516-636): that variant receives the access token and account id as
arguments, first checks that the video file exists, then uploads to S3;
the remaining oracle fields are as in `IGEnv`. -/
structure GavEnv where
  fileExists : Bool
  s3Url : Option String
  containerResp : IdResp
  statusResp : Nat → StatusResp
  publishResp : IdResp

namespace generateAffirmationVideo

/-- Polling loop of `generate_affirmation_video.py` `post_to_instagram`
(lines 577-604): up to 20 attempts; a poll response with HTTP status other
than 200 returns `False` at once; `FINISHED` breaks to the publish step;
`ERROR` returns `False`; anything else sleeps 8 seconds.  As in the
`post_affirmation_video.py` variant, exhausting the attempts falls
through to the publish step. -/
def pollLoop (env : GavEnv) : Nat → Nat → PollExit × List IGEv
  | 0, _ => (.proceed, [])
  | n + 1, i =>
    let sr := env.statusResp i
    if sr.httpStatus ≠ 200 then (.errored, [IGEv.pollGet])
    else if sr.statusCode = some "FINISHED" then (.proceed, [IGEv.pollGet])
    else if sr.statusCode = some "ERROR" then (.errored, [IGEv.pollGet])
    else
      let r := pollLoop env n (i + 1)
      (r.1, IGEv.pollGet :: IGEv.sleep 8 :: r.2)

/-- `generate_affirmation_video.py` `post_to_instagram`: file-existence
check, S3 upload, container creation (HTTP 200 and `id` required), the
20-attempt loop above, then the `media_publish` POST (HTTP 200 and `id`
required). -/
def post_to_instagram (env : GavEnv) : Bool × List IGEv :=
  if env.fileExists then
    if truthy env.s3Url then
      if env.containerResp.httpStatus = 200 then
        match env.containerResp.idField with
        | none => (false, [IGEv.s3Upload, IGEv.containerPost])
        | some _ =>
          publishStep [IGEv.s3Upload, IGEv.containerPost] (pollLoop env 20 0) env.publishResp
      else (false, [IGEv.s3Upload, IGEv.containerPost])
    else (false, [IGEv.s3Upload])
  else (false, [])

end generateAffirmationVideo

/-- How the carousel per-child polling loop of
`generate_swipeable_post.py` ends: a non-200 status response makes the
whole function return `False` (`httpFail`); otherwise the loop ends as
soon as the (defaulted) `status_code` differs from `IN_PROGRESS`, carrying
that status out (`statusIs`). -/
inductive SwipeExit where
  | httpFail
  | statusIs (status : String)
deriving Repr, DecidableEq

namespace generateSwipeablePost

/-- Per-child polling loop of `generate_swipeable_post.py`
`post_to_instagram` (lines 290-305): `status = 'IN_PROGRESS'` followed by
`while status == 'IN_PROGRESS': time.sleep(5); GET; ...`.  Each iteration
sleeps 5 seconds, then polls; on HTTP 200 the status becomes
`status_code` defaulted to `IN_PROGRESS` (`.get('status_code',
'IN_PROGRESS')`), on any other HTTP status the function returns `False`.
The Python loop has no attempt bound, so the embedding takes explicit
fuel and returns `none` when the fuel runs out while the Python loop
would still be running. -/
def childPollLoop (f : Nat → StatusResp) : Nat → Nat → Option (SwipeExit × List IGEv)
  | 0, _ => none
  | n + 1, i =>
    let sr := f i
    if sr.httpStatus = 200 then
      let s := sr.statusCode.getD "IN_PROGRESS"
      if s = "IN_PROGRESS" then
        (childPollLoop f n (i + 1)).map fun r => (r.1, IGEv.sleep 5 :: IGEv.pollGet :: r.2)
      else some (.statusIs s, [IGEv.sleep 5, IGEv.pollGet])
    else some (.httpFail, [IGEv.sleep 5, IGEv.pollGet])

end generateSwipeablePost

/-! Concrete environments used to evaluate the publishers on specific
status sequences. -/

/-- An environment whose status sequence is `IN_PROGRESS, IN_PROGRESS,
FINISHED, FINISHED, ...`, with all other calls succeeding. -/
def twoInProgressEnv : IGEnv where
  pageId := some "page1"
  accessToken := some "token1"
  igAccount := some "acct1"
  s3Url := some "url1"
  containerResp := ⟨200, some "CONT1"⟩
  statusResp := fun i => if i < 2 then ⟨200, some "IN_PROGRESS"⟩ else ⟨200, some "FINISHED"⟩
  publishResp := ⟨200, some "POST9"⟩

/-- An environment whose status sequence never leaves `IN_PROGRESS`, with
all other calls succeeding. -/
def allInProgressEnv : IGEnv where
  pageId := some "page1"
  accessToken := some "token1"
  igAccount := some "acct1"
  s3Url := some "url1"
  containerResp := ⟨200, some "CONT1"⟩
  statusResp := fun _ => ⟨200, some "IN_PROGRESS"⟩
  publishResp := ⟨200, some "POST9"⟩

/-- An environment whose first poll returns `ERROR` and whose second
returns `FINISHED`, with all other calls succeeding. -/
def errorThenFinishedEnv : IGEnv where
  pageId := some "page1"
  accessToken := some "token1"
  igAccount := some "acct1"
  s3Url := some "url1"
  containerResp := ⟨200, some "CONT1"⟩
  statusResp := fun i => if i = 0 then ⟨200, some "ERROR"⟩ else ⟨200, some "FINISHED"⟩
  publishResp := ⟨200, some "POST9"⟩

/-- A status sequence that stays `IN_PROGRESS` for 35 polls and then
returns `FINISHED`, every response with HTTP status 200. -/
def slowStatusSeq : Nat → StatusResp :=
  fun i => if i < 35 then ⟨200, some "IN_PROGRESS"⟩ else ⟨200, some "FINISHED"⟩

/-- A `generate_affirmation_video.py` environment whose status sequence
never leaves `IN_PROGRESS`, with all other calls succeeding. -/
def gavAllInProgressEnv : GavEnv where
  fileExists := true
  s3Url := some "url1"
  containerResp := ⟨200, some "CONT1"⟩
  statusResp := fun _ => ⟨200, some "IN_PROGRESS"⟩
  publishResp := ⟨200, some "POST9"⟩

/-- A `generate_affirmation_video.py` environment whose first poll
returns `ERROR`. -/
def gavErrorEnv : GavEnv where
  fileExists := true
  s3Url := some "url1"
  containerResp := ⟨200, some "CONT1"⟩
  statusResp := fun _ => ⟨200, some "ERROR"⟩
  publishResp := ⟨200, some "POST9"⟩

/-! Affirmation text validation (claim C5). -/

/-- The whitespace characters removed by Python `str.strip()` (for ASCII
arguments): space, tab, newline, carriage return, vertical tab, form
feed. -/
def pySpace (c : Char) : Bool :=
  c = ' ' || c = '\t' || c = '\n' || c = '\r' || c = '\x0b' || c = '\x0c'

/-- Python `s.strip()`: remove leading and trailing whitespace. -/
def pyStrip (s : List Char) : List Char :=
  ((s.dropWhile pySpace).reverse.dropWhile pySpace).reverse

/-- The replacement the validation loop computes for one phrase:
`aff[:maxLen].strip()` when the phrase is over-long, the phrase itself
otherwise. -/
def pyTruncate (maxLen : Nat) (p : List Char) : List Char :=
  if maxLen < p.length then pyStrip (p.take maxLen) else p

/-- One iteration of the validation loop of `generate_themed_affirmations`
(`generate_swipeable_post.py` lines 82-89, `generate_darkSunset_5sec.py`
lines 120-126): `aff = acc[k]`; `if len(aff) > maxLen:
acc[acc.index(aff)] = aff[:maxLen].strip()`. -/
def validateStep (maxLen : Nat) (acc : List (List Char)) (k : Nat) : List (List Char) :=
  match acc.get? k with
  | none => acc
  | some aff =>
    if maxLen < aff.length then acc.set (acc.indexOf aff) (pyStrip (aff.take maxLen))
    else acc

/-- The `for aff in affirmations` validation loop, iterating `n` more
times with `k` the index of the current element of the live list. -/
def validateAux (maxLen : Nat) : Nat → Nat → List (List Char) → List (List Char)
  | 0, _, acc => acc
  | n + 1, k, acc => validateAux maxLen n (k + 1) (validateStep maxLen acc k)

/-- The in-place truncation pass of `generate_themed_affirmations` over a
parsed affirmation list (`generate_swipeable_post.py` lines 82-89 with
`maxLen = 30`; same code in `generate_darkSunset_5sec.py`). -/
def validateAffirmations (maxLen : Nat) (l : List (List Char)) : List (List Char) :=
  validateAux maxLen l.length 0 l

/-- A 40-character phrase whose 30-character prefix ends in a space:
`"I am calm and strong and very "` (30 characters) followed by
`"peaceful!!"`. -/
def overlongPhrase : List Char := ("I am calm and strong and very peaceful!!").toList

namespace generateSunsetAffirmationVideo

/-- The validation pass of `generate_sunset_affirmation_video.py`
`generate_themed_affirmations` (lines 108-113): over-long phrases (more
than 35 characters) are only logged with a warning; the list is returned
unchanged. -/
def validatePhrases (l : List (List Char)) : List (List Char) := l

end generateSunsetAffirmationVideo

/-! Vertical text layout (claim C6). -/

/-- The vertical anchor of phrase `i` out of `n`, from
`create_affirmation_clips` (`generate_darkSunset_5sec.py` lines 150-180)
and `create_affirmation_image` (`generate_swipeable_post.py` lines
116-135): a band of `bandFrac` of the canvas height is vertically
centered (`start_y = (H - total_height) / 2`), divided into `n + 1` equal
gaps (`spacing = total_height / (len(affirmations) + 1)`), and phrase `i`
is centered on `start_y + spacing * (i + 1)` (the code then converts this
center anchor to a top coordinate by subtracting half the rendered text
height, an externally determined rendering value). -/
def layoutAnchor (bandFrac canvasH : ℚ) (n i : ℕ) : ℚ :=
  (canvasH - canvasH * bandFrac) / 2 + canvasH * bandFrac / (n + 1) * (i + 1)

/-- The list of vertical anchors for a phrase list, one per phrase in
input order. -/
def layoutAnchors (bandFrac canvasH : ℚ) (phrases : List (List Char)) : List ℚ :=
  (List.range phrases.length).map fun i => layoutAnchor bandFrac canvasH phrases.length i

/-- Canvas height of the video variants (`VIDEO_HEIGHT = 1920`). -/
def VIDEO_HEIGHT : ℚ := 1920

/-- Canvas height of the swipeable-image variant (`IMAGE_HEIGHT = 1350`,
4:5 aspect ratio). -/
def IMAGE_HEIGHT : ℚ := 1350

/-- `create_affirmation_clips` anchors (`generate_darkSunset_5sec.py`):
70% band on a 1920-high canvas. -/
def darkSunsetAnchors (phrases : List (List Char)) : List ℚ :=
  layoutAnchors (7 / 10) VIDEO_HEIGHT phrases

/-- `create_affirmation_image` anchors (`generate_swipeable_post.py`):
80% band on a 1350-high canvas. -/
def swipeableAnchors (phrases : List (List Char)) : List ℚ :=
  layoutAnchors (8 / 10) IMAGE_HEIGHT phrases

/-! Caption builders (claim C7). -/

/-- `format_affirmations_for_caption` (`post_affirmation_video.py` lines
19-21): join `• {affirmation}` lines with newlines. -/
def bulletLines : List (List Char) → List Char
  | [] => []
  | [a] => ("• ").toList ++ a
  | a :: b :: t => ("• ").toList ++ a ++ '\n' :: bulletLines (b :: t)

/-- The fixed hashtag block appended by `get_caption` in
`post_affirmation_video.py` (lines 61-65). -/
def pavHashtags : List Char :=
  ("#selfcare #selfcaretips #selfcarequotes #mentalhealth #selfcarejourney #selflove "
    ++ "#glowup #glowuptips #selfcareroutine #selfdevelopment #growth #mindset #dailyquotes "
    ++ "#dailymotivationalquotes #healthylifestyle #selflove #selflovequotes #mentalhealth2024 "
    ++ "#glowup #glowuptips #innerhealing #healingquotes #positivemindset #affirmations "
    ++ "#affirmationjournal #selfloveclub #mentalwellness #wellness #dailymantra #manifestation").toList

/-- Fallback sentence of `generate_ai_caption`
(`post_affirmation_video.py` line 50), returned when the OpenAI call
raises. -/
def pavAiFallback : List Char :=
  ("Start your day with these powerful affirmations to uplift your spirit. 🌟").toList

/-- `generate_ai_caption` (`post_affirmation_video.py` lines 23-50): the
stripped model output on success, the fixed fallback sentence on any
exception. -/
def pavGenerateAiCaption (r : Except Unit (List Char)) : List Char :=
  match r with
  | .ok content => pyStrip content
  | .error _ => pavAiFallback

/-- `get_caption` (`post_affirmation_video.py` lines 52-66): the AI (or
fallback) sentence, a blank line, the bulleted affirmations, a blank
line, then the fixed hashtag block. -/
def pavGetCaption (r : Except Unit (List Char)) (affs : List (List Char)) : List Char :=
  pavGenerateAiCaption r ++ ("\n\n").toList ++ bulletLines affs ++ ("\n\n").toList ++ pavHashtags

/-- The standard hashtag block of `get_caption` in
`generate_darkSunset_5sec.py` (line 268) and `generate_swipeable_post.py`
(line 177). -/
def dsStdHashtags : List Char :=
  ("#Affirmations #DailyAffirmations #PositiveAffirmations #SelfLove #SelfCare "
    ++ "#PositiveVibes #Motivation #Mindset #Gratitude #Positivity #Healing #Manifestation "
    ++ "#Inspiration #Mindfulness #AffirmationOfTheDay #affirmationjournal").toList

/-- Python `theme.replace('-', '')`: remove every dash. -/
def removeDashes (t : List Char) : List Char := t.filter fun c => c ≠ '-'

/-- The fixed caption returned by `get_caption` in
`generate_darkSunset_5sec.py` (line 280) and `generate_swipeable_post.py`
(line 189) when the OpenAI call raises: a fixed sentence plus the
standard hashtag block, with no affirmation and no theme hashtag. -/
def dsFallbackCaption : List Char :=
  ("Start your day with positive affirmations! 🌟\n\n").toList ++ dsStdHashtags

/-- `get_caption` of `generate_darkSunset_5sec.py` (lines 239-280) and
`generate_swipeable_post.py` (lines 148-189): on success, the stripped
model sentence, a blank line, the standard hashtag block, a newline and
the theme hashtag (`#` plus the theme with dashes removed); the
affirmations appear only in the prompt, not in the built caption.  On any
exception, the fixed fallback caption. -/
def dsGetCaption (r : Except Unit (List Char)) (theme : List Char) : List Char :=
  match r with
  | .ok content =>
    pyStrip content ++ ("\n\n").toList ++ dsStdHashtags ++ '\n' :: '#' :: removeDashes theme
  | .error _ => dsFallbackCaption

/-! Content generators and their fallbacks (claim C8). -/

/-- A raised Python exception, as the claims observe it (its `str(e)`
rendering or, for a `NameError`, the offending identifier). -/
inductive PyExn where
  | nameError (ident : List Char)
  | other (msg : List Char)
deriving Repr, DecidableEq

/-- The fixed fallback phrase list of `generate_themed_affirmations` in
`generate_darkSunset_5sec.py` (lines 132-138). -/
def dsFallbackAffirmations : List (List Char) :=
  [("I am worthy of love").toList, ("I trust my journey").toList,
    ("I embrace my power").toList, ("I choose happiness").toList, ("I am enough").toList]

/-- `generate_themed_affirmations` of `generate_darkSunset_5sec.py`
(lines 81-138): the oracle argument is the parsed `affirmations` array of
the model response, or the exception raised anywhere inside the `try`
block (the OpenAI call or the JSON parse).  On success the truncation
pass runs with a 30-character limit; on any exception the fixed fallback
list is returned. -/
def dsGenerateThemedAffirmations (r : Except PyExn (List (List Char))) : List (List Char) :=
  match r with
  | .ok affs => validateAffirmations 30 affs
  | .error _ => dsFallbackAffirmations

/-- `generate_affirmations_and_caption` of
`generate_affirmation_video.py` (lines 49-124): three straight-line
OpenAI calls — theme, affirmations, caption — with no `try`/`except` and
no fallback, so the first exception propagates to the caller.  The
oracle arguments are the three call outcomes (the affirmation outcome
carries the already-parsed `affirmations` array, since the JSON parse is
also unprotected). -/
def gavGenerateAffirmationsAndCaption (themeR : Except PyExn (List Char))
    (affR : Except PyExn (List (List Char))) (capR : Except PyExn (List Char)) :
    Except PyExn ((List Char) × List (List Char) × List Char) := do
  let t ← themeR
  let a ← affR
  let c ← capR
  return (pyStrip t, a, pyStrip c)

/-! The HTTP-triggered variant (claim C9). -/

/-- What the Flask route observes of the first two pipeline stages: the
outcome of `generate_affirmations_and_caption()` and of
`create_video(affirmations)`. -/
structure AppEnv where
  genResult : Except PyExn ((List Char) × List (List Char) × List Char)
  createVideoResult : Except PyExn Unit

/-- A JSON response body of the `/generate` route: the success shape or
the error shape (whose `message` is the string rendering of the caught
exception). -/
inductive AppBody where
  | success (theme : List Char) (affirmations : List (List Char)) (caption : List Char)
      (facebookPosted instagramPosted : Bool)
  | error (exn : PyExn)
deriving Repr, DecidableEq

/-- `generate_post` of `app.py` (lines 11-50), as written: after
`generate_affirmations_and_caption()` and `create_video(affirmations)`
succeed, the line `output_path = f"output/{theme}_{datetime.now()...}"`
raises `NameError` because `app.py` never imports `datetime`; the
`except Exception` handler turns every raised exception into an HTTP 500
with the error body.  (Even with `datetime` imported, the next line calls
`post_to_facebook` with 4 arguments against its 2-parameter definition in
`generate_affirmation_video.py`, a `TypeError`; the success response is
unreachable.) -/
def appGeneratePost (env : AppEnv) : Nat × AppBody :=
  match env.genResult with
  | .error e => (500, .error e)
  | .ok _ =>
    match env.createVideoResult with
    | .error e => (500, .error e)
    | .ok _ => (500, .error (.nameError ("datetime").toList))

/-! S3 staging (claim C10). -/

/-- `os.path.basename` for POSIX paths: the part after the last slash. -/
def basename (p : List Char) : List Char :=
  (p.reverse.takeWhile fun c => c ≠ '/').reverse

/-- The S3 object key used by every `upload_to_s3` variant:
`file_name = os.path.basename(path)`, passed as the key with no
uniqueness suffix. -/
def s3ObjectKey (p : List Char) : List Char := basename p

/-- The public URL built by `upload_to_s3` in `post_to_social.py` (line
37) and `generate_swipeable_post.py` (line 236). -/
def s3PublicUrl (bucket p : List Char) : List Char :=
  ("https://").toList ++ bucket ++ (".s3.amazonaws.com/").toList ++ basename p

/-- The public URL built by `upload_to_s3` in
`generate_affirmation_video.py` (line 390), which also interpolates the
configured region. -/
def s3PublicUrlRegion (bucket region p : List Char) : List Char :=
  ("https://").toList ++ bucket ++ (".s3.").toList ++ region
    ++ (".amazonaws.com/").toList ++ basename p

/-- An S3 bucket modelled as a map from object keys to blobs;
`upload_file` is an unconditional overwrite at the key. -/
def s3Put (store : List Char → Option (List Char)) (key blob : List Char) :
    List Char → Option (List Char) :=
  fun k => if k = key then some blob else store k

/-- `upload_to_s3` (`post_to_social.py` lines 16-43): store the blob
under the basename key and return the public URL. -/
def uploadToS3 (store : List Char → Option (List Char)) (bucket p blob : List Char) :
    (List Char → Option (List Char)) × List Char :=
  (s3Put store (s3ObjectKey p) blob, s3PublicUrl bucket p)

/-! Basic lemmas about trace fragments. -/

theorem pollSleepBlocks_zero (d : Nat) : pollSleepBlocks d 0 = [] := rfl

theorem pollSleepBlocks_succ (d n : Nat) :
    pollSleepBlocks d (n + 1) = IGEv.pollGet :: IGEv.sleep d :: pollSleepBlocks d n := by
  simp [pollSleepBlocks, List.replicate_succ]

theorem sleepPollBlocks_zero (d : Nat) : sleepPollBlocks d 0 = [] := rfl

theorem sleepPollBlocks_succ (d n : Nat) :
    sleepPollBlocks d (n + 1) = IGEv.sleep d :: IGEv.pollGet :: sleepPollBlocks d n := by
  simp [sleepPollBlocks, List.replicate_succ]

theorem pollCount_append (t₁ t₂ : List IGEv) :
    pollCount (t₁ ++ t₂) = pollCount t₁ + pollCount t₂ := by
  simp [pollCount, List.countP_append]

theorem publishCount_append (t₁ t₂ : List IGEv) :
    publishCount (t₁ ++ t₂) = publishCount t₁ + publishCount t₂ := by
  simp [publishCount, List.countP_append]

theorem pollCount_cons (e : IGEv) (tr : List IGEv) :
    pollCount (e :: tr) = pollCount tr + if isPollGet e then 1 else 0 :=
  List.countP_cons ..

theorem publishCount_cons (e : IGEv) (tr : List IGEv) :
    publishCount (e :: tr) = publishCount tr + if isPublishPost e then 1 else 0 :=
  List.countP_cons ..

theorem pollCount_pollSleepBlocks (d n : Nat) : pollCount (pollSleepBlocks d n) = n := by
  induction n with
  | zero => rfl
  | succ n ih =>
    rw [pollSleepBlocks_succ]
    unfold pollCount at ih ⊢
    rw [List.countP_cons, List.countP_cons]
    simp [isPollGet, ih]

theorem publishCount_pollSleepBlocks (d n : Nat) : publishCount (pollSleepBlocks d n) = 0 := by
  induction n with
  | zero => rfl
  | succ n ih =>
    rw [pollSleepBlocks_succ]
    unfold publishCount at ih ⊢
    rw [List.countP_cons, List.countP_cons]
    simp [isPublishPost, ih]

theorem pollCount_sleepPollBlocks (d n : Nat) : pollCount (sleepPollBlocks d n) = n := by
  induction n with
  | zero => rfl
  | succ n ih =>
    rw [sleepPollBlocks_succ]
    unfold pollCount at ih ⊢
    rw [List.countP_cons, List.countP_cons]
    simp [isPollGet, ih]

theorem sleep_mem_pollSleepBlocks {d n s : Nat} (h : IGEv.sleep s ∈ pollSleepBlocks d n) :
    s = d := by
  induction n with
  | zero => simp [pollSleepBlocks] at h
  | succ n ih =>
    rw [pollSleepBlocks_succ] at h
    simp only [List.mem_cons] at h
    rcases h with h | h | h
    · exact absurd h (by simp)
    · injection h with hs
    · exact ih h

theorem pollCount_publishStep (pre : List IGEv) (r : PollExit × List IGEv) (resp : IdResp) :
    pollCount (publishStep pre r resp).2 = pollCount pre + pollCount r.2 := by
  rcases r with ⟨e, tr⟩
  cases e
  · simp [publishStep, pollCount_append]
  · by_cases hp : resp.httpStatus = 200
    · rcases hid : resp.idField with _ | pid <;>
        simp [publishStep, hp, hid, pollCount_append, pollCount, List.countP_cons,
          List.countP_nil, isPollGet]
    · simp [publishStep, hp, pollCount_append, pollCount, List.countP_cons,
        List.countP_nil, isPollGet]

theorem publishCount_publishStep (pre : List IGEv) (r : PollExit × List IGEv) (resp : IdResp) :
    publishCount (publishStep pre r resp).2 =
      publishCount pre + publishCount r.2 +
        (match r.1 with | .errored => 0 | .proceed => 1) := by
  rcases r with ⟨e, tr⟩
  cases e
  · simp [publishStep, publishCount_append]
  · by_cases hp : resp.httpStatus = 200
    · rcases hid : resp.idField with _ | pid <;>
        simp [publishStep, hp, hid, publishCount_append, publishCount, List.countP_cons,
          List.countP_nil, isPublishPost] <;> omega
    · simp [publishStep, hp, publishCount_append, publishCount, List.countP_cons,
        List.countP_nil, isPublishPost]
      omega

theorem sleep_mem_publishStep {pre : List IGEv} {r : PollExit × List IGEv} {resp : IdResp}
    {s : ℕ} (h : IGEv.sleep s ∈ (publishStep pre r resp).2) :
    IGEv.sleep s ∈ pre ∨ IGEv.sleep s ∈ r.2 := by
  rcases r with ⟨e, tr⟩
  cases e
  · simpa [publishStep] using h
  · rw [publishStep] at h
    by_cases hp : resp.httpStatus = 200
    · rw [if_pos hp] at h
      rcases hid : resp.idField with _ | pid <;> rw [hid] at h <;>
        · simp only [List.mem_append] at h
          rcases h with (h | h) | h
          · exact Or.inl h
          · exact Or.inr h
          · simp at h
    · rw [if_neg hp] at h
      simp only [List.mem_append] at h
      rcases h with (h | h) | h
      · exact Or.inl h
      · exact Or.inr h
      · simp at h

/-! Characterizations of the `post_to_social.py` polling loop. -/

theorem pts_pollLoop_timeout (env : IGEnv) :
    ∀ (n i : ℕ), (∀ j, j < n → (env.statusResp (i + j)).statusCode ≠ some "FINISHED") →
      postToSocial.pollLoop env n i = (false, pollSleepBlocks 10 n ++ [IGEv.logTimeout]) := by
  intro n
  induction n with
  | zero => intro i _; rfl
  | succ n ih =>
    intro i h
    have h0 : (env.statusResp i).statusCode ≠ some "FINISHED" := by
      have := h 0 (by omega); simpa using this
    have ihr := ih (i + 1) (fun j hj => by
      have := h (j + 1) (by omega)
      simpa [Nat.add_assoc, Nat.add_comm 1 j] using this)
    simp only [postToSocial.pollLoop]
    rw [if_neg h0, ihr, pollSleepBlocks_succ]
    rfl

theorem pts_pollLoop_finished (env : IGEnv) :
    ∀ (k n i : ℕ), k < n →
      (∀ j, j < k → (env.statusResp (i + j)).statusCode ≠ some "FINISHED") →
      (env.statusResp (i + k)).statusCode = some "FINISHED" →
      postToSocial.pollLoop env n i =
        ((match env.publishResp.idField with
          | some pid => (true, pollSleepBlocks 10 k ++ [IGEv.pollGet, IGEv.publishPost, IGEv.logSuccess pid])
          | none => (false, pollSleepBlocks 10 k ++ [IGEv.pollGet, IGEv.publishPost]))) := by
  intro k
  induction k with
  | zero =>
    intro n i hk _ hfin
    obtain ⟨m, rfl⟩ : ∃ m, n = m + 1 := ⟨n - 1, by omega⟩
    rw [Nat.add_zero] at hfin
    simp only [postToSocial.pollLoop]
    rw [if_pos hfin]
    cases hp : env.publishResp.idField <;> simp [pollSleepBlocks_zero]
  | succ k ih =>
    intro n i hk hpre hfin
    obtain ⟨m, rfl⟩ : ∃ m, n = m + 1 := ⟨n - 1, by omega⟩
    have h0 : (env.statusResp i).statusCode ≠ some "FINISHED" := by
      have := hpre 0 (by omega); simpa using this
    have ihr := ih m (i + 1) (by omega)
      (fun j hj => by
        have := hpre (j + 1) (by omega)
        simpa [Nat.add_assoc, Nat.add_comm 1 j] using this)
      (by
        have := hfin
        simpa [Nat.add_assoc, Nat.add_comm 1 k] using this)
    simp only [postToSocial.pollLoop]
    rw [if_neg h0, ihr, pollSleepBlocks_succ]
    cases hp : env.publishResp.idField <;> simp

/-! Characterizations of the `post_affirmation_video.py` /
`post_sunset_affirmation_video.py` polling loop. -/

theorem pav_pollLoop_fallthrough (env : IGEnv) :
    ∀ (n i : ℕ),
      (∀ j, j < n → (env.statusResp (i + j)).statusCode ≠ some "FINISHED" ∧
        (env.statusResp (i + j)).statusCode ≠ some "ERROR") →
      postAffirmationVideo.pollLoop env n i = (.proceed, pollSleepBlocks 10 n) := by
  intro n
  induction n with
  | zero => intro i _; rfl
  | succ n ih =>
    intro i h
    obtain ⟨h0f, h0e⟩ : _ ∧ _ := by have := h 0 (by omega); simpa using this
    have ihr := ih (i + 1) (fun j hj => by
      have := h (j + 1) (by omega)
      simpa [Nat.add_assoc, Nat.add_comm 1 j] using this)
    simp only [postAffirmationVideo.pollLoop]
    rw [if_neg h0f, if_neg h0e, ihr, pollSleepBlocks_succ]

theorem pav_pollLoop_finished (env : IGEnv) :
    ∀ (k n i : ℕ), k < n →
      (∀ j, j < k → (env.statusResp (i + j)).statusCode ≠ some "FINISHED" ∧
        (env.statusResp (i + j)).statusCode ≠ some "ERROR") →
      (env.statusResp (i + k)).statusCode = some "FINISHED" →
      postAffirmationVideo.pollLoop env n i =
        (.proceed, pollSleepBlocks 10 k ++ [IGEv.pollGet]) := by
  intro k
  induction k with
  | zero =>
    intro n i hk _ hfin
    obtain ⟨m, rfl⟩ : ∃ m, n = m + 1 := ⟨n - 1, by omega⟩
    rw [Nat.add_zero] at hfin
    simp only [postAffirmationVideo.pollLoop]
    rw [if_pos hfin]
    simp [pollSleepBlocks_zero]
  | succ k ih =>
    intro n i hk hpre hfin
    obtain ⟨m, rfl⟩ : ∃ m, n = m + 1 := ⟨n - 1, by omega⟩
    obtain ⟨h0f, h0e⟩ : _ ∧ _ := by have := hpre 0 (by omega); simpa using this
    have ihr := ih m (i + 1) (by omega)
      (fun j hj => by
        have := hpre (j + 1) (by omega)
        simpa [Nat.add_assoc, Nat.add_comm 1 j] using this)
      (by have := hfin; simpa [Nat.add_assoc, Nat.add_comm 1 k] using this)
    simp only [postAffirmationVideo.pollLoop]
    rw [if_neg h0f, if_neg h0e, ihr, pollSleepBlocks_succ]
    simp

theorem pav_pollLoop_error (env : IGEnv) :
    ∀ (k n i : ℕ), k < n →
      (∀ j, j < k → (env.statusResp (i + j)).statusCode ≠ some "FINISHED" ∧
        (env.statusResp (i + j)).statusCode ≠ some "ERROR") →
      (env.statusResp (i + k)).statusCode = some "ERROR" →
      postAffirmationVideo.pollLoop env n i =
        (.errored, pollSleepBlocks 10 k ++ [IGEv.pollGet]) := by
  intro k
  induction k with
  | zero =>
    intro n i hk _ herr
    obtain ⟨m, rfl⟩ : ∃ m, n = m + 1 := ⟨n - 1, by omega⟩
    rw [Nat.add_zero] at herr
    have hnf : (env.statusResp i).statusCode ≠ some "FINISHED" := by simp [herr]
    simp only [postAffirmationVideo.pollLoop]
    rw [if_neg hnf, if_pos herr]
    simp [pollSleepBlocks_zero]
  | succ k ih =>
    intro n i hk hpre herr
    obtain ⟨m, rfl⟩ : ∃ m, n = m + 1 := ⟨n - 1, by omega⟩
    obtain ⟨h0f, h0e⟩ : _ ∧ _ := by have := hpre 0 (by omega); simpa using this
    have ihr := ih m (i + 1) (by omega)
      (fun j hj => by
        have := hpre (j + 1) (by omega)
        simpa [Nat.add_assoc, Nat.add_comm 1 j] using this)
      (by have := herr; simpa [Nat.add_assoc, Nat.add_comm 1 k] using this)
    simp only [postAffirmationVideo.pollLoop]
    rw [if_neg h0f, if_neg h0e, ihr, pollSleepBlocks_succ]
    simp

/-! Characterizations of the `generate_affirmation_video.py` polling
loop. -/

theorem gav_pollLoop_fallthrough (env : GavEnv) :
    ∀ (n i : ℕ),
      (∀ j, j < n → (env.statusResp (i + j)).httpStatus = 200 ∧
        (env.statusResp (i + j)).statusCode ≠ some "FINISHED" ∧
        (env.statusResp (i + j)).statusCode ≠ some "ERROR") →
      generateAffirmationVideo.pollLoop env n i = (.proceed, pollSleepBlocks 8 n) := by
  intro n
  induction n with
  | zero => intro i _; rfl
  | succ n ih =>
    intro i h
    obtain ⟨h200, h0f, h0e⟩ : _ ∧ _ ∧ _ := by have := h 0 (by omega); simpa using this
    have ihr := ih (i + 1) (fun j hj => by
      have := h (j + 1) (by omega)
      simpa [Nat.add_assoc, Nat.add_comm 1 j] using this)
    simp only [generateAffirmationVideo.pollLoop]
    rw [if_neg (by simp [h200]), if_neg h0f, if_neg h0e, ihr, pollSleepBlocks_succ]

theorem gav_pollLoop_error (env : GavEnv) :
    ∀ (k n i : ℕ), k < n →
      (∀ j, j < k → (env.statusResp (i + j)).httpStatus = 200 ∧
        (env.statusResp (i + j)).statusCode ≠ some "FINISHED" ∧
        (env.statusResp (i + j)).statusCode ≠ some "ERROR") →
      (env.statusResp (i + k)).httpStatus = 200 →
      (env.statusResp (i + k)).statusCode = some "ERROR" →
      generateAffirmationVideo.pollLoop env n i =
        (.errored, pollSleepBlocks 8 k ++ [IGEv.pollGet]) := by
  intro k
  induction k with
  | zero =>
    intro n i hk _ h200 herr
    obtain ⟨m, rfl⟩ : ∃ m, n = m + 1 := ⟨n - 1, by omega⟩
    rw [Nat.add_zero] at h200 herr
    have hnf : (env.statusResp i).statusCode ≠ some "FINISHED" := by simp [herr]
    simp only [generateAffirmationVideo.pollLoop]
    rw [if_neg (by simp [h200]), if_neg hnf, if_pos herr]
    simp [pollSleepBlocks_zero]
  | succ k ih =>
    intro n i hk hpre h200 herr
    obtain ⟨m, rfl⟩ : ∃ m, n = m + 1 := ⟨n - 1, by omega⟩
    obtain ⟨g200, h0f, h0e⟩ : _ ∧ _ ∧ _ := by have := hpre 0 (by omega); simpa using this
    have ihr := ih m (i + 1) (by omega)
      (fun j hj => by
        have := hpre (j + 1) (by omega)
        simpa [Nat.add_assoc, Nat.add_comm 1 j] using this)
      (by have := h200; simpa [Nat.add_assoc, Nat.add_comm 1 k] using this)
      (by have := herr; simpa [Nat.add_assoc, Nat.add_comm 1 k] using this)
    simp only [generateAffirmationVideo.pollLoop]
    rw [if_neg (by simp [g200]), if_neg h0f, if_neg h0e, ihr, pollSleepBlocks_succ]
    simp

/-- C3: for the status sequence `[IN_PROGRESS, IN_PROGRESS, FINISHED]`,
with container creation and publish succeeding and the publish response
containing an id, the Instagram publishers of `post_to_social.py` and
`post_sunset_affirmation_video.py` issue exactly 3 status-poll GETs, then
exactly one `media_publish` POST, and return success carrying the post id
of the publish response (in the success log line). -/
theorem C3_three_polls_one_publish (env : IGEnv) (cid pid : String)
    (hpage : truthy env.pageId = true) (htok : truthy env.accessToken = true)
    (hacc : truthy env.igAccount = true) (hs3 : truthy env.s3Url = true)
    (hcst : env.containerResp.httpStatus = 200)
    (hcid : env.containerResp.idField = some cid)
    (h0 : (env.statusResp 0).statusCode = some "IN_PROGRESS")
    (h1 : (env.statusResp 1).statusCode = some "IN_PROGRESS")
    (h2 : (env.statusResp 2).statusCode = some "FINISHED")
    (hpst : env.publishResp.httpStatus = 200)
    (hpid : env.publishResp.idField = some pid) :
    postToSocial.post_to_instagram env =
      (true, [IGEv.getAccountId, IGEv.s3Upload, IGEv.containerPost,
        IGEv.pollGet, IGEv.sleep 10, IGEv.pollGet, IGEv.sleep 10,
        IGEv.pollGet, IGEv.publishPost, IGEv.logSuccess pid]) ∧
    postSunset.post_to_instagram env =
      (true, [IGEv.getAccountId, IGEv.s3Upload, IGEv.containerPost,
        IGEv.pollGet, IGEv.sleep 10, IGEv.pollGet, IGEv.sleep 10,
        IGEv.pollGet, IGEv.publishPost, IGEv.logSuccess pid]) ∧
    pollCount [IGEv.getAccountId, IGEv.s3Upload, IGEv.containerPost,
        IGEv.pollGet, IGEv.sleep 10, IGEv.pollGet, IGEv.sleep 10,
        IGEv.pollGet, IGEv.publishPost, IGEv.logSuccess pid] = 3 ∧
    publishCount [IGEv.getAccountId, IGEv.s3Upload, IGEv.containerPost,
        IGEv.pollGet, IGEv.sleep 10, IGEv.pollGet, IGEv.sleep 10,
        IGEv.pollGet, IGEv.publishPost, IGEv.logSuccess pid] = 1 := by
  have hpre2 : ∀ j, j < 2 → (env.statusResp (0 + j)).statusCode ≠ some "FINISHED" ∧
      (env.statusResp (0 + j)).statusCode ≠ some "ERROR" := by
    intro j hj
    interval_cases j
    · constructor <;> simp [h0]
    · constructor <;> simp [h1]
  have hptsLoop := pts_pollLoop_finished env 2 30 0 (by omega)
    (fun j hj => (hpre2 j hj).1) (by simpa using h2)
  have hpavLoop := pav_pollLoop_finished env 2 30 0 (by omega) hpre2 (by simpa using h2)
  refine ⟨?_, ?_,
    by simp [pollCount, List.countP_cons, isPollGet],
    by simp [publishCount, List.countP_cons, isPublishPost]⟩
  · rw [postToSocial.post_to_instagram, hpage, htok, hacc, hs3]
    simp only [Bool.and_self, if_true, hcid, hptsLoop, hpid]
    rw [pollSleepBlocks_succ, pollSleepBlocks_succ, pollSleepBlocks_zero]
    rfl
  · rw [postSunset.post_to_instagram, postAffirmationVideo.post_to_instagram, hacc, hs3, hcst]
    simp only [if_true, hcid, hpavLoop]
    simp [publishStep, hpst, hpid, pollSleepBlocks_succ, pollSleepBlocks_zero]

/-- Witness for C3 at the concrete environment `twoInProgressEnv`. -/
theorem C3_three_polls_one_publish_witness :
    postToSocial.post_to_instagram twoInProgressEnv =
      (true, [IGEv.getAccountId, IGEv.s3Upload, IGEv.containerPost,
        IGEv.pollGet, IGEv.sleep 10, IGEv.pollGet, IGEv.sleep 10,
        IGEv.pollGet, IGEv.publishPost, IGEv.logSuccess "POST9"]) ∧
    postSunset.post_to_instagram twoInProgressEnv =
      (true, [IGEv.getAccountId, IGEv.s3Upload, IGEv.containerPost,
        IGEv.pollGet, IGEv.sleep 10, IGEv.pollGet, IGEv.sleep 10,
        IGEv.pollGet, IGEv.publishPost, IGEv.logSuccess "POST9"]) :=
  ⟨(C3_three_polls_one_publish twoInProgressEnv "CONT1" "POST9" rfl rfl rfl rfl rfl rfl
      (by decide) (by decide) (by decide) rfl rfl).1,
    (C3_three_polls_one_publish twoInProgressEnv "CONT1" "POST9" rfl rfl rfl rfl rfl rfl
      (by decide) (by decide) (by decide) rfl rfl).2.1⟩

/-- C1 counterexample: on a status sequence that never returns
`FINISHED`, the `post_affirmation_video.py` publisher does NOT return a
timed-out failure without publishing — after its 30 polls it issues the
`media_publish` POST anyway and (here) returns success. -/
theorem C1_counterexample :
    (postAffirmationVideo.post_to_instagram allInProgressEnv).1 = true ∧
    publishCount (postAffirmationVideo.post_to_instagram allInProgressEnv).2 = 1 ∧
    pollCount (postAffirmationVideo.post_to_instagram allInProgressEnv).2 = 30 := by
  decide

/-- C1 (amended): on a status sequence in which no poll returns
`FINISHED` within the 30 (resp. 20) attempts, the `post_to_social.py`
publisher performs exactly 30 polls with a 10-second sleep after each,
logs the timeout and returns failure without any `media_publish` POST —
as the claim states; but the `post_affirmation_video.py` and
`generate_affirmation_video.py` publishers (when additionally no poll
returns `ERROR`, and for the latter every poll response is HTTP 200)
perform their 30 resp. 20 polls, sleeping 10 resp. 8 seconds after each,
and then nevertheless issue exactly one `media_publish` POST, returning
the outcome of that publish instead of a timed-out failure. -/
theorem C1_poll_exhaustion (env : IGEnv) (genv : GavEnv) (cid gcid : String)
    (hpage : truthy env.pageId = true) (htok : truthy env.accessToken = true)
    (hacc : truthy env.igAccount = true) (hs3 : truthy env.s3Url = true)
    (hcst : env.containerResp.httpStatus = 200)
    (hcid : env.containerResp.idField = some cid)
    (hnf : ∀ i, i < 30 → (env.statusResp i).statusCode ≠ some "FINISHED")
    (hgf : genv.fileExists = true) (hgs3 : truthy genv.s3Url = true)
    (hgcst : genv.containerResp.httpStatus = 200)
    (hgcid : genv.containerResp.idField = some gcid)
    (hg : ∀ i, i < 20 → (genv.statusResp i).httpStatus = 200 ∧
      (genv.statusResp i).statusCode ≠ some "FINISHED" ∧
      (genv.statusResp i).statusCode ≠ some "ERROR") :
    postToSocial.post_to_instagram env =
      (false, IGEv.getAccountId :: IGEv.s3Upload :: IGEv.containerPost ::
        (pollSleepBlocks 10 30 ++ [IGEv.logTimeout])) ∧
    pollCount (postToSocial.post_to_instagram env).2 = 30 ∧
    publishCount (postToSocial.post_to_instagram env).2 = 0 ∧
    ((∀ i, i < 30 → (env.statusResp i).statusCode ≠ some "ERROR") →
      pollCount (postAffirmationVideo.post_to_instagram env).2 = 30 ∧
      publishCount (postAffirmationVideo.post_to_instagram env).2 = 1) ∧
    pollCount (generateAffirmationVideo.post_to_instagram genv).2 = 20 ∧
    publishCount (generateAffirmationVideo.post_to_instagram genv).2 = 1 := by
  have hptsLoop := pts_pollLoop_timeout env 30 0 (fun j hj => by simpa using hnf j hj)
  have hpts : postToSocial.post_to_instagram env =
      (false, IGEv.getAccountId :: IGEv.s3Upload :: IGEv.containerPost ::
        (pollSleepBlocks 10 30 ++ [IGEv.logTimeout])) := by
    rw [postToSocial.post_to_instagram, hpage, htok, hacc, hs3]
    simp only [Bool.and_self, if_true, hcid, hptsLoop]
  refine ⟨hpts, ?_, ?_, ?_, ?_, ?_⟩
  · rw [hpts]
    show pollCount (IGEv.getAccountId :: IGEv.s3Upload :: IGEv.containerPost ::
      (pollSleepBlocks 10 30 ++ [IGEv.logTimeout])) = 30
    rw [pollCount_cons, pollCount_cons, pollCount_cons, pollCount_append,
      pollCount_pollSleepBlocks]
    decide
  · rw [hpts]
    show publishCount (IGEv.getAccountId :: IGEv.s3Upload :: IGEv.containerPost ::
      (pollSleepBlocks 10 30 ++ [IGEv.logTimeout])) = 0
    rw [publishCount_cons, publishCount_cons, publishCount_cons, publishCount_append,
      publishCount_pollSleepBlocks]
    decide
  · intro hne
    have hloop := pav_pollLoop_fallthrough env 30 0
      (fun j hj => ⟨by simpa using hnf j hj, by simpa using hne j hj⟩)
    have hres : postAffirmationVideo.post_to_instagram env =
        publishStep [IGEv.getAccountId, IGEv.s3Upload, IGEv.containerPost]
          (PollExit.proceed, pollSleepBlocks 10 30) env.publishResp := by
      rw [postAffirmationVideo.post_to_instagram, hacc, hs3, hcst]
      simp only [if_true, hcid, hloop]
    constructor
    · rw [hres, pollCount_publishStep]
      decide
    · rw [hres, publishCount_publishStep]
      decide
  all_goals {
    have hloop := gav_pollLoop_fallthrough genv 20 0 (fun j hj => by simpa using hg j hj)
    have hres : generateAffirmationVideo.post_to_instagram genv =
        publishStep [IGEv.s3Upload, IGEv.containerPost]
          (PollExit.proceed, pollSleepBlocks 8 20) genv.publishResp := by
      rw [generateAffirmationVideo.post_to_instagram, hgf, hgs3, hgcst]
      simp only [if_true, hgcid, hloop]
    first
    | (rw [hres, pollCount_publishStep]; decide)
    | (rw [hres, publishCount_publishStep]; decide)
  }

/-- Witness for C1 (amended) at the concrete environments
`allInProgressEnv` and `gavAllInProgressEnv`. -/
theorem C1_poll_exhaustion_witness :
    pollCount (postToSocial.post_to_instagram allInProgressEnv).2 = 30 ∧
    publishCount (postToSocial.post_to_instagram allInProgressEnv).2 = 0 ∧
    pollCount (postAffirmationVideo.post_to_instagram allInProgressEnv).2 = 30 ∧
    publishCount (postAffirmationVideo.post_to_instagram allInProgressEnv).2 = 1 ∧
    pollCount (generateAffirmationVideo.post_to_instagram gavAllInProgressEnv).2 = 20 ∧
    publishCount (generateAffirmationVideo.post_to_instagram gavAllInProgressEnv).2 = 1 := by
  have h := C1_poll_exhaustion allInProgressEnv gavAllInProgressEnv "CONT1" "CONT1"
    rfl rfl rfl rfl rfl rfl
    (fun i _ => by simp [allInProgressEnv])
    rfl rfl rfl rfl
    (fun i _ => ⟨rfl, by simp [gavAllInProgressEnv], by simp [gavAllInProgressEnv]⟩)
  have hpav := h.2.2.2.1 (fun i _ => by simp [allInProgressEnv])
  exact ⟨h.2.1, h.2.2.1, hpav.1, hpav.2, h.2.2.2.2.1, h.2.2.2.2.2⟩

/-- C2 counterexample: in `post_to_social.py` a poll that returns
`status_code ERROR` does not terminate the publisher — here the first
poll returns `ERROR`, yet the publisher polls again, issues the
`media_publish` POST when the second poll returns `FINISHED`, and returns
success. -/
theorem C2_counterexample :
    (errorThenFinishedEnv.statusResp 0).statusCode = some "ERROR" ∧
    (postToSocial.post_to_instagram errorThenFinishedEnv).1 = true ∧
    pollCount (postToSocial.post_to_instagram errorThenFinishedEnv).2 = 2 ∧
    publishCount (postToSocial.post_to_instagram errorThenFinishedEnv).2 = 1 := by
  decide

/-- C2 (amended): in the `post_affirmation_video.py` and
`generate_affirmation_video.py` publishers a poll returning `ERROR`
immediately terminates with a failure result, with no further poll and
no `media_publish` POST; but in `post_to_social.py`, which has no
`ERROR` branch, an `ERROR` poll is treated like any other non-`FINISHED`
status: the loop sleeps 10 seconds and continues with the next
attempt. -/
theorem C2_error_terminal (env : IGEnv) (genv : GavEnv) (cid gcid : String) (k gk : ℕ)
    (hacc : truthy env.igAccount = true) (hs3 : truthy env.s3Url = true)
    (hcst : env.containerResp.httpStatus = 200)
    (hcid : env.containerResp.idField = some cid)
    (hk : k < 30)
    (hpre : ∀ j, j < k → (env.statusResp j).statusCode ≠ some "FINISHED" ∧
      (env.statusResp j).statusCode ≠ some "ERROR")
    (herr : (env.statusResp k).statusCode = some "ERROR")
    (hgf : genv.fileExists = true) (hgs3 : truthy genv.s3Url = true)
    (hgcst : genv.containerResp.httpStatus = 200)
    (hgcid : genv.containerResp.idField = some gcid)
    (hgk : gk < 20)
    (hgpre : ∀ j, j < gk → (genv.statusResp j).httpStatus = 200 ∧
      (genv.statusResp j).statusCode ≠ some "FINISHED" ∧
      (genv.statusResp j).statusCode ≠ some "ERROR")
    (hg200 : (genv.statusResp gk).httpStatus = 200)
    (hgerr : (genv.statusResp gk).statusCode = some "ERROR") :
    postAffirmationVideo.post_to_instagram env =
      (false, [IGEv.getAccountId, IGEv.s3Upload, IGEv.containerPost]
        ++ (pollSleepBlocks 10 k ++ [IGEv.pollGet])) ∧
    pollCount (postAffirmationVideo.post_to_instagram env).2 = k + 1 ∧
    publishCount (postAffirmationVideo.post_to_instagram env).2 = 0 ∧
    generateAffirmationVideo.post_to_instagram genv =
      (false, [IGEv.s3Upload, IGEv.containerPost]
        ++ (pollSleepBlocks 8 gk ++ [IGEv.pollGet])) ∧
    pollCount (generateAffirmationVideo.post_to_instagram genv).2 = gk + 1 ∧
    publishCount (generateAffirmationVideo.post_to_instagram genv).2 = 0 ∧
    (∀ (env2 : IGEnv) (n i : ℕ), (env2.statusResp i).statusCode = some "ERROR" →
      postToSocial.pollLoop env2 (n + 1) i =
        ((postToSocial.pollLoop env2 n (i + 1)).1,
          IGEv.pollGet :: IGEv.sleep 10 :: (postToSocial.pollLoop env2 n (i + 1)).2)) := by
  have hloop := pav_pollLoop_error env k 30 0 hk
    (fun j hj => by simpa using hpre j hj) (by simpa using herr)
  have hpav : postAffirmationVideo.post_to_instagram env =
      (false, [IGEv.getAccountId, IGEv.s3Upload, IGEv.containerPost]
        ++ (pollSleepBlocks 10 k ++ [IGEv.pollGet])) := by
    rw [postAffirmationVideo.post_to_instagram, hacc, hs3, hcst]
    simp only [if_true, hcid, hloop]
    rfl
  have hgloop := gav_pollLoop_error genv gk 20 0 hgk
    (fun j hj => by simpa using hgpre j hj) (by simpa using hg200) (by simpa using hgerr)
  have hgav : generateAffirmationVideo.post_to_instagram genv =
      (false, [IGEv.s3Upload, IGEv.containerPost]
        ++ (pollSleepBlocks 8 gk ++ [IGEv.pollGet])) := by
    rw [generateAffirmationVideo.post_to_instagram, hgf, hgs3, hgcst]
    simp only [if_true, hgcid, hgloop]
    rfl
  refine ⟨hpav, ?_, ?_, hgav, ?_, ?_, ?_⟩
  · rw [hpav]
    show pollCount ([IGEv.getAccountId, IGEv.s3Upload, IGEv.containerPost]
      ++ (pollSleepBlocks 10 k ++ [IGEv.pollGet])) = k + 1
    rw [pollCount_append, pollCount_append, pollCount_pollSleepBlocks]
    simp [pollCount, List.countP_cons, isPollGet]
  · rw [hpav]
    show publishCount ([IGEv.getAccountId, IGEv.s3Upload, IGEv.containerPost]
      ++ (pollSleepBlocks 10 k ++ [IGEv.pollGet])) = 0
    rw [publishCount_append, publishCount_append, publishCount_pollSleepBlocks]
    decide
  · rw [hgav]
    show pollCount ([IGEv.s3Upload, IGEv.containerPost]
      ++ (pollSleepBlocks 8 gk ++ [IGEv.pollGet])) = gk + 1
    rw [pollCount_append, pollCount_append, pollCount_pollSleepBlocks]
    simp [pollCount, List.countP_cons, isPollGet]
  · rw [hgav]
    show publishCount ([IGEv.s3Upload, IGEv.containerPost]
      ++ (pollSleepBlocks 8 gk ++ [IGEv.pollGet])) = 0
    rw [publishCount_append, publishCount_append, publishCount_pollSleepBlocks]
    decide
  · intro env2 n i h
    have hnf : (env2.statusResp i).statusCode ≠ some "FINISHED" := by simp [h]
    simp only [postToSocial.pollLoop]
    rw [if_neg hnf]

/-- Witness for C2 (amended) at concrete environments with `ERROR` on the
first poll. -/
theorem C2_error_terminal_witness :
    postAffirmationVideo.post_to_instagram errorThenFinishedEnv =
      (false, [IGEv.getAccountId, IGEv.s3Upload, IGEv.containerPost, IGEv.pollGet]) ∧
    pollCount (postAffirmationVideo.post_to_instagram errorThenFinishedEnv).2 = 1 ∧
    publishCount (postAffirmationVideo.post_to_instagram errorThenFinishedEnv).2 = 0 ∧
    generateAffirmationVideo.post_to_instagram gavErrorEnv =
      (false, [IGEv.s3Upload, IGEv.containerPost, IGEv.pollGet]) ∧
    postToSocial.pollLoop errorThenFinishedEnv 30 0 =
      ((postToSocial.pollLoop errorThenFinishedEnv 29 1).1,
        IGEv.pollGet :: IGEv.sleep 10 :: (postToSocial.pollLoop errorThenFinishedEnv 29 1).2) := by
  have h := C2_error_terminal errorThenFinishedEnv gavErrorEnv "CONT1" "CONT1" 0 0
    rfl rfl rfl rfl (by omega) (fun j hj => absurd hj (by omega)) (by decide)
    rfl rfl rfl rfl (by omega) (fun j hj => absurd hj (by omega)) rfl (by decide)
  refine ⟨?_, h.2.1, h.2.2.1, ?_, ?_⟩
  · have := h.1
    simpa using this
  · have := h.2.2.2.1
    simpa using this
  · exact h.2.2.2.2.2.2 errorThenFinishedEnv 29 0 (by decide)

/-! Boundedness lemmas for the bounded polling loops, and the
characterization of the unbounded swipeable per-child loop. -/

theorem pts_pollLoop_pollCount_le (env : IGEnv) :
    ∀ (n i : ℕ), pollCount (postToSocial.pollLoop env n i).2 ≤ n := by
  intro n
  induction n with
  | zero => intro i; exact Nat.le_refl _
  | succ n ih =>
    intro i
    simp only [postToSocial.pollLoop]
    by_cases hf : (env.statusResp i).statusCode = some "FINISHED"
    · rw [if_pos hf]
      rcases hid : env.publishResp.idField with _ | pid <;>
        exact Nat.succ_le_succ (Nat.zero_le _)
    · rw [if_neg hf]
      have := ih (i + 1)
      rw [pollCount_cons, pollCount_cons]
      have e1 : (if isPollGet (IGEv.sleep 10) then 1 else 0) = 0 := rfl
      have e2 : (if isPollGet IGEv.pollGet then 1 else 0) = 1 := rfl
      rw [e1, e2]
      omega

theorem pts_pollLoop_sleep (env : IGEnv) :
    ∀ (n i s : ℕ), IGEv.sleep s ∈ (postToSocial.pollLoop env n i).2 → s = 10 := by
  intro n
  induction n with
  | zero =>
    intro i s hs
    simp only [postToSocial.pollLoop, List.mem_singleton] at hs
    cases hs
  | succ n ih =>
    intro i s hs
    simp only [postToSocial.pollLoop] at hs
    by_cases hf : (env.statusResp i).statusCode = some "FINISHED"
    · rw [if_pos hf] at hs
      rcases hid : env.publishResp.idField with _ | pid <;> rw [hid] at hs <;> simp at hs
    · rw [if_neg hf] at hs
      simp only [List.mem_cons] at hs
      rcases hs with h | h | h
      · exact absurd h (by simp)
      · injection h with h2
      · exact ih (i + 1) s h

theorem gav_pollLoop_pollCount_le (env : GavEnv) :
    ∀ (n i : ℕ), pollCount (generateAffirmationVideo.pollLoop env n i).2 ≤ n := by
  intro n
  induction n with
  | zero => intro i; exact Nat.le_refl _
  | succ n ih =>
    intro i
    simp only [generateAffirmationVideo.pollLoop]
    by_cases h200 : (env.statusResp i).httpStatus ≠ 200
    · rw [if_pos h200]; exact Nat.succ_le_succ (Nat.zero_le _)
    · rw [if_neg h200]
      by_cases hf : (env.statusResp i).statusCode = some "FINISHED"
      · rw [if_pos hf]; exact Nat.succ_le_succ (Nat.zero_le _)
      · rw [if_neg hf]
        by_cases he : (env.statusResp i).statusCode = some "ERROR"
        · rw [if_pos he]; exact Nat.succ_le_succ (Nat.zero_le _)
        · rw [if_neg he]
          have := ih (i + 1)
          rw [pollCount_cons, pollCount_cons]
          have e1 : (if isPollGet (IGEv.sleep 8) then 1 else 0) = 0 := rfl
          have e2 : (if isPollGet IGEv.pollGet then 1 else 0) = 1 := rfl
          rw [e1, e2]
          omega

theorem gav_pollLoop_sleep (env : GavEnv) :
    ∀ (n i s : ℕ), IGEv.sleep s ∈ (generateAffirmationVideo.pollLoop env n i).2 → s = 8 := by
  intro n
  induction n with
  | zero =>
    intro i s hs
    simp [generateAffirmationVideo.pollLoop] at hs
  | succ n ih =>
    intro i s hs
    simp only [generateAffirmationVideo.pollLoop] at hs
    by_cases h200 : (env.statusResp i).httpStatus ≠ 200
    · rw [if_pos h200] at hs; simp at hs
    · rw [if_neg h200] at hs
      by_cases hf : (env.statusResp i).statusCode = some "FINISHED"
      · rw [if_pos hf] at hs; simp at hs
      · rw [if_neg hf] at hs
        by_cases he : (env.statusResp i).statusCode = some "ERROR"
        · rw [if_pos he] at hs; simp at hs
        · rw [if_neg he] at hs
          simp only [List.mem_cons] at hs
          rcases hs with h | h | h
          · exact absurd h (by simp)
          · injection h with h2
          · exact ih (i + 1) s h

theorem swipe_childPollLoop_finishes (f : Nat → StatusResp) :
    ∀ (n fuel i : ℕ),
      (∀ j, j < n → f (i + j) = ⟨200, some "IN_PROGRESS"⟩) →
      (f (i + n)).httpStatus = 200 →
      (f (i + n)).statusCode = some "FINISHED" →
      n < fuel →
      generateSwipeablePost.childPollLoop f fuel i =
        some (.statusIs "FINISHED", sleepPollBlocks 5 (n + 1)) := by
  intro n
  induction n with
  | zero =>
    intro fuel i _ h200 hfin hf
    obtain ⟨m, rfl⟩ : ∃ m, fuel = m + 1 := ⟨fuel - 1, by omega⟩
    rw [Nat.add_zero] at h200 hfin
    simp [generateSwipeablePost.childPollLoop, h200, hfin, sleepPollBlocks]
  | succ n ih =>
    intro fuel i hpre h200 hfin hf
    obtain ⟨m, rfl⟩ : ∃ m, fuel = m + 1 := ⟨fuel - 1, by omega⟩
    have h0 : f i = ⟨200, some "IN_PROGRESS"⟩ := by
      have := hpre 0 (by omega); simpa using this
    have ihr := ih m (i + 1)
      (fun j hj => by
        have := hpre (j + 1) (by omega)
        simpa [Nat.add_assoc, Nat.add_comm 1 j] using this)
      (by have := h200; simpa [Nat.add_assoc, Nat.add_comm 1 n] using this)
      (by have := hfin; simpa [Nat.add_assoc, Nat.add_comm 1 n] using this)
      (by omega)
    simp [generateSwipeablePost.childPollLoop, h0, ihr, sleepPollBlocks_succ]

/-- C4 counterexample: the carousel variant's per-child polling loop is
not bounded by 30 polls with an 8-10 second delay — on a status sequence
with 35 `IN_PROGRESS` responses it issues 36 poll GETs, each preceded by
a 5-second sleep. -/
theorem C4_counterexample :
    generateSwipeablePost.childPollLoop slowStatusSeq 40 0 =
      some (.statusIs "FINISHED", sleepPollBlocks 5 36) ∧
    pollCount (sleepPollBlocks 5 36) = 36 ∧ ¬(36 ≤ 30) ∧
    IGEv.sleep 5 ∈ sleepPollBlocks 5 36 ∧ ¬(8 ≤ 5) := by
  decide

/-- C4 (amended): the `post_to_social.py` loop issues at most 30 poll
GETs, every sleep in its run being 10 seconds, and the
`generate_affirmation_video.py` loop at most 20 poll GETs with 8-second
sleeps, for every status sequence; but the carousel variant's per-child
polling (`generate_swipeable_post.py`) is an unbounded `while` loop with
a 5-second delay: for every `n`, a sequence with `n` leading
`IN_PROGRESS` responses makes it issue exactly `n + 1` poll GETs, so no
fixed bound applies to it. -/
theorem C4_poll_bound :
    (∀ env : IGEnv, pollCount (postToSocial.post_to_instagram env).2 ≤ 30 ∧
      ∀ s, IGEv.sleep s ∈ (postToSocial.post_to_instagram env).2 → s = 10) ∧
    (∀ genv : GavEnv, pollCount (generateAffirmationVideo.post_to_instagram genv).2 ≤ 20 ∧
      ∀ s, IGEv.sleep s ∈ (generateAffirmationVideo.post_to_instagram genv).2 → s = 8) ∧
    (∀ (f : Nat → StatusResp) (n fuel : ℕ),
      (∀ j, j < n → f j = ⟨200, some "IN_PROGRESS"⟩) →
      (f n).httpStatus = 200 → (f n).statusCode = some "FINISHED" → n < fuel →
      generateSwipeablePost.childPollLoop f fuel 0 =
        some (.statusIs "FINISHED", sleepPollBlocks 5 (n + 1)) ∧
      pollCount (sleepPollBlocks 5 (n + 1)) = n + 1) := by
  refine ⟨?_, ?_, ?_⟩
  · intro env
    constructor
    · rw [postToSocial.post_to_instagram]
      split
      · split
        · split
          · split
            · decide
            · rw [pollCount_cons, pollCount_cons, pollCount_cons]
              have := pts_pollLoop_pollCount_le env 30 0
              have e1 : (if isPollGet IGEv.getAccountId then 1 else 0) = 0 := rfl
              have e2 : (if isPollGet IGEv.s3Upload then 1 else 0) = 0 := rfl
              have e3 : (if isPollGet IGEv.containerPost then 1 else 0) = 0 := rfl
              rw [e1, e2, e3]
              omega
          · decide
        · decide
      · decide
    · intro s hs
      rw [postToSocial.post_to_instagram] at hs
      split at hs
      · split at hs
        · split at hs
          · split at hs
            · simp at hs
            · simp only [List.mem_cons] at hs
              rcases hs with h | h | h | h
              · exact absurd h (by simp)
              · exact absurd h (by simp)
              · exact absurd h (by simp)
              · exact pts_pollLoop_sleep env 30 0 s h
          · simp at hs
        · simp at hs
      · simp at hs
  · intro genv
    constructor
    · rw [generateAffirmationVideo.post_to_instagram]
      split
      · split
        · split
          · split
            · decide
            · rw [pollCount_publishStep]
              have := gav_pollLoop_pollCount_le genv 20 0
              have e1 : pollCount [IGEv.s3Upload, IGEv.containerPost] = 0 := rfl
              rw [e1]
              omega
          · decide
        · decide
      · decide
    · intro s hs
      rw [generateAffirmationVideo.post_to_instagram] at hs
      split at hs
      · split at hs
        · split at hs
          · split at hs
            · simp at hs
            · rcases sleep_mem_publishStep hs with h | h
              · simp at h
              · exact gav_pollLoop_sleep genv 20 0 s h
          · simp at hs
        · simp at hs
      · simp at hs
  · intro f n fuel hpre h200 hfin hf
    refine ⟨?_, pollCount_sleepPollBlocks 5 (n + 1)⟩
    exact swipe_childPollLoop_finishes f n fuel 0 (fun j hj => by simpa using hpre j hj)
      (by simpa using h200) (by simpa using hfin) hf

/-- Witness for C4 (amended) at concrete environments and the concrete
slow status sequence. -/
theorem C4_poll_bound_witness :
    pollCount (postToSocial.post_to_instagram allInProgressEnv).2 ≤ 30 ∧
    pollCount (generateAffirmationVideo.post_to_instagram gavAllInProgressEnv).2 ≤ 20 ∧
    generateSwipeablePost.childPollLoop slowStatusSeq 40 0 =
      some (.statusIs "FINISHED", sleepPollBlocks 5 36) := by
  refine ⟨(C4_poll_bound.1 allInProgressEnv).1, (C4_poll_bound.2.1 gavAllInProgressEnv).1, ?_⟩
  exact (C4_poll_bound.2.2 slowStatusSeq 35 40
    (fun j hj => by simp [slowStatusSeq, hj]) (by decide) (by decide) (by omega)).1

/-! The truncation pass: the in-place loop is the element-wise map of
`pyTruncate`. -/

theorem length_dropWhile_le {α : Type} (p : α → Bool) (l : List α) :
    (l.dropWhile p).length ≤ l.length := by
  induction l with
  | nil => simp
  | cons a l ih =>
    by_cases h : p a <;> simp [List.dropWhile_cons, h] <;> omega

theorem pyStrip_length_le (s : List Char) : (pyStrip s).length ≤ s.length := by
  unfold pyStrip
  calc ((s.dropWhile pySpace).reverse.dropWhile pySpace).reverse.length
      = ((s.dropWhile pySpace).reverse.dropWhile pySpace).length := List.length_reverse _
    _ ≤ (s.dropWhile pySpace).reverse.length := length_dropWhile_le _ _
    _ = (s.dropWhile pySpace).length := List.length_reverse _
    _ ≤ s.length := length_dropWhile_le _ _

theorem pyTruncate_length_le (maxLen : Nat) (p : List Char) :
    (pyTruncate maxLen p).length ≤ maxLen := by
  unfold pyTruncate
  by_cases h : maxLen < p.length
  · rw [if_pos h]
    calc (pyStrip (p.take maxLen)).length ≤ (p.take maxLen).length := pyStrip_length_le _
      _ ≤ maxLen := List.length_take_le _ _
  · rw [if_neg h]
    omega

theorem indexOf_append_cons (pre : List (List Char)) (aff : List Char)
    (post : List (List Char)) (h : ∀ q ∈ pre, q ≠ aff) :
    (pre ++ aff :: post).indexOf aff = pre.length := by
  induction pre with
  | nil =>
    show List.indexOf aff (aff :: post) = 0
    simp [List.indexOf, List.findIdx_cons]
  | cons b rest ih =>
    have hb : b ≠ aff := h b (by simp)
    have ihr := ih (fun q hq => h q (by simp [hq]))
    have hbeq : (b == aff) = false := beq_eq_false_iff_ne.2 hb
    simp only [List.cons_append, List.length_cons, List.indexOf, List.findIdx_cons, hbeq,
      cond_false] at ihr ⊢
    omega

theorem set_append_cons (pre : List (List Char)) (v aff : List Char)
    (post : List (List Char)) :
    (pre ++ aff :: post).set pre.length v = pre ++ v :: post := by
  induction pre with
  | nil => rfl
  | cons b rest ih => simpa using ih

theorem validateAux_spec (maxLen : Nat) :
    ∀ (post pre : List (List Char)), (∀ q ∈ pre, q.length ≤ maxLen) →
      validateAux maxLen post.length pre.length (pre ++ post) =
        pre ++ post.map (pyTruncate maxLen) := by
  intro post
  induction post with
  | nil => intro pre hpre; simp [validateAux]
  | cons aff rest ih =>
    intro pre hpre
    have hget : (pre ++ aff :: rest).get? pre.length = some aff := by
      rw [List.get?_append_right (Nat.le_refl _)]
      simp
    have hstep : validateStep maxLen (pre ++ aff :: rest) pre.length =
        pre ++ pyTruncate maxLen aff :: rest := by
      rw [validateStep, hget]
      show (if maxLen < aff.length then
          (pre ++ aff :: rest).set ((pre ++ aff :: rest).indexOf aff)
            (pyStrip (aff.take maxLen))
        else pre ++ aff :: rest) = pre ++ pyTruncate maxLen aff :: rest
      by_cases hlen : maxLen < aff.length
      · rw [if_pos hlen]
        have hidx : (pre ++ aff :: rest).indexOf aff = pre.length :=
          indexOf_append_cons pre aff rest (fun q hq heq => by
            have := hpre q hq
            rw [heq] at this
            omega)
        rw [hidx, set_append_cons, pyTruncate, if_pos hlen]
      · rw [if_neg hlen, pyTruncate, if_neg hlen]
    show validateAux maxLen (rest.length + 1) pre.length (pre ++ aff :: rest) = _
    rw [validateAux, hstep]
    have hpre2 : ∀ q ∈ pre ++ [pyTruncate maxLen aff], q.length ≤ maxLen := by
      intro q hq
      rcases List.mem_append.1 hq with h | h
      · exact hpre q h
      · rw [List.mem_singleton.1 h]
        exact pyTruncate_length_le maxLen aff
    have happly := ih (pre ++ [pyTruncate maxLen aff]) hpre2
    rw [List.length_append, List.length_singleton] at happly
    rw [List.append_assoc, List.singleton_append] at happly
    simpa using happly

theorem validateAffirmations_eq_map (maxLen : Nat) (l : List (List Char)) :
    validateAffirmations maxLen l = l.map (pyTruncate maxLen) := by
  have h := validateAux_spec maxLen l [] (by simp)
  simpa [validateAffirmations] using h

/-- C5 counterexample: the 40-character phrase `overlongPhrase`, under the
configured maximum of 30, is replaced not by a phrase of exactly 30
characters but by one of 29 (`aff[:30].strip()` removes the trailing
space of the truncated prefix); and in
`generate_sunset_affirmation_video.py` (maximum 35) the same over-long
phrase survives unchanged into the returned affirmation list. -/
theorem C5_counterexample :
    overlongPhrase.length = 40 ∧
    validateAffirmations 30 [overlongPhrase] = [("I am calm and strong and very").toList] ∧
    (("I am calm and strong and very").toList).length = 29 ∧ ¬(29 = 30) ∧
    generateSunsetAffirmationVideo.validatePhrases [overlongPhrase] = [overlongPhrase] ∧
    35 < overlongPhrase.length := by
  decide

/-- C5 (amended): in the truncating variants
(`generate_swipeable_post.py`, `generate_darkSunset_5sec.py`, maximum
30), every phrase of the validated list has length at most 30; a phrase
that exceeded the maximum is replaced, in its position, by its
30-character prefix with surrounding whitespace stripped — which has
exactly 30 characters only when that prefix neither starts nor ends with
whitespace — and phrases within the limit are kept unchanged; in
`generate_sunset_affirmation_video.py` (maximum 35) over-long phrases
are only logged and the list is returned unchanged, so over-long phrases
do survive there. -/
theorem C5_truncation (l : List (List Char)) :
    (∀ p ∈ validateAffirmations 30 l, p.length ≤ 30) ∧
    (∀ k p, l.get? k = some p → 30 < p.length →
      (validateAffirmations 30 l).get? k = some (pyStrip (p.take 30))) ∧
    (∀ k p, l.get? k = some p → p.length ≤ 30 →
      (validateAffirmations 30 l).get? k = some p) ∧
    generateSunsetAffirmationVideo.validatePhrases l = l := by
  refine ⟨?_, ?_, ?_, rfl⟩
  · intro p hp
    rw [validateAffirmations_eq_map] at hp
    obtain ⟨q, _, rfl⟩ := List.mem_map.1 hp
    exact pyTruncate_length_le 30 q
  · intro k p hk hlong
    rw [validateAffirmations_eq_map, List.get?_map, hk]
    simp [pyTruncate, hlong]
  · intro k p hk hshort
    rw [validateAffirmations_eq_map, List.get?_map, hk]
    simp [pyTruncate]
    omega

/-- Witness for C5 (amended) at a concrete two-phrase list. -/
theorem C5_truncation_witness :
    (validateAffirmations 30 [overlongPhrase, ("I am enough").toList]).get? 0 =
      some (pyStrip (overlongPhrase.take 30)) ∧
    (validateAffirmations 30 [overlongPhrase, ("I am enough").toList]).get? 1 =
      some (("I am enough").toList) := by
  constructor
  · exact (C5_truncation [overlongPhrase, ("I am enough").toList]).2.1 0 overlongPhrase
      (by decide) (by decide)
  · exact (C5_truncation [overlongPhrase, ("I am enough").toList]).2.2.1 1
      (("I am enough").toList) (by decide) (by decide)

/-! Vertical layout arithmetic. -/

theorem layoutAnchor_props (f H : ℚ) (hf0 : 0 < f) (hf : f ≤ 4 / 5) (hH : 0 < H) (n : ℕ) :
    (∀ i j : ℕ, i < j → layoutAnchor f H n i < layoutAnchor f H n j) ∧
    (∀ i : ℕ, i < n → H * (1 / 10) ≤ layoutAnchor f H n i ∧
      layoutAnchor f H n i ≤ H * (9 / 10)) ∧
    (∀ i : ℕ, layoutAnchor f H n (i + 1) - layoutAnchor f H n i = H * f / (n + 1)) := by
  have hn1 : (0 : ℚ) < (n : ℚ) + 1 := by positivity
  refine ⟨?_, ?_, ?_⟩
  · intro i j hij
    unfold layoutAnchor
    have hsp : 0 < H * f / ((n : ℚ) + 1) := by positivity
    have hc : ((i : ℚ) + 1) < ((j : ℚ) + 1) := by
      have : (i : ℚ) < (j : ℚ) := by exact_mod_cast hij
      linarith
    have := mul_lt_mul_of_pos_left hc hsp
    linarith
  · intro i hi
    unfold layoutAnchor
    have hi1 : ((i : ℚ) + 1) ≤ (n : ℚ) := by exact_mod_cast Nat.succ_le_of_lt hi
    have hfrac : ((i : ℚ) + 1) / ((n : ℚ) + 1) ≤ 1 := by
      rw [div_le_one hn1]; linarith
    have heq : H * f / ((n : ℚ) + 1) * ((i : ℚ) + 1) =
        H * f * (((i : ℚ) + 1) / ((n : ℚ) + 1)) := by ring
    constructor
    · have h1 : H * (1 / 10) ≤ (H - H * f) / 2 := by nlinarith
      have h2 : (0 : ℚ) ≤ H * f / ((n : ℚ) + 1) * ((i : ℚ) + 1) := by positivity
      linarith
    · have h3 : H * f * (((i : ℚ) + 1) / ((n : ℚ) + 1)) ≤ H * f :=
        mul_le_of_le_one_right (by positivity) hfrac
      have h4 : (H - H * f) / 2 + H * f ≤ H * (9 / 10) := by nlinarith
      rw [heq]
      linarith
  · intro i
    unfold layoutAnchor
    push_cast
    ring

/-- C6: for every non-empty phrase list, both layout computations
(`create_affirmation_clips`, 70% band of a 1920-high canvas, and
`create_affirmation_image`, 80% band of a 1350-high canvas) produce
exactly one vertical anchor per phrase in input order, strictly
increasing with the phrase index, each within
`[canvasHeight*0.1, canvasHeight*0.9]`, with the difference between
consecutive anchors exactly the constant gap
`canvasHeight*bandFrac/(N+1)` (so also constant up to 1 pixel). -/
theorem C6_layout (phrases : List (List Char)) (hne : phrases ≠ []) :
    (darkSunsetAnchors phrases).length = phrases.length ∧
    (swipeableAnchors phrases).length = phrases.length ∧
    (∀ i j : ℕ, i < j →
      layoutAnchor (7 / 10) VIDEO_HEIGHT phrases.length i <
        layoutAnchor (7 / 10) VIDEO_HEIGHT phrases.length j) ∧
    (∀ i j : ℕ, i < j →
      layoutAnchor (8 / 10) IMAGE_HEIGHT phrases.length i <
        layoutAnchor (8 / 10) IMAGE_HEIGHT phrases.length j) ∧
    (∀ p ∈ darkSunsetAnchors phrases,
      VIDEO_HEIGHT * (1 / 10) ≤ p ∧ p ≤ VIDEO_HEIGHT * (9 / 10)) ∧
    (∀ p ∈ swipeableAnchors phrases,
      IMAGE_HEIGHT * (1 / 10) ≤ p ∧ p ≤ IMAGE_HEIGHT * (9 / 10)) ∧
    (∀ i : ℕ, layoutAnchor (7 / 10) VIDEO_HEIGHT phrases.length (i + 1) -
        layoutAnchor (7 / 10) VIDEO_HEIGHT phrases.length i =
      VIDEO_HEIGHT * (7 / 10) / (phrases.length + 1)) ∧
    (∀ i : ℕ, layoutAnchor (8 / 10) IMAGE_HEIGHT phrases.length (i + 1) -
        layoutAnchor (8 / 10) IMAGE_HEIGHT phrases.length i =
      IMAGE_HEIGHT * (8 / 10) / (phrases.length + 1)) := by
  obtain ⟨d1, d2, d3⟩ := layoutAnchor_props (7 / 10) VIDEO_HEIGHT (by norm_num) (by norm_num)
    (by norm_num [VIDEO_HEIGHT]) phrases.length
  obtain ⟨s1, s2, s3⟩ := layoutAnchor_props (8 / 10) IMAGE_HEIGHT (by norm_num) (by norm_num)
    (by norm_num [IMAGE_HEIGHT]) phrases.length
  refine ⟨by simp [darkSunsetAnchors, layoutAnchors],
    by simp [swipeableAnchors, layoutAnchors], d1, s1, ?_, ?_, d3, s3⟩
  · intro p hp
    rw [darkSunsetAnchors, layoutAnchors] at hp
    obtain ⟨i, hi, rfl⟩ := List.mem_map.1 hp
    exact d2 i (List.mem_range.1 hi)
  · intro p hp
    rw [swipeableAnchors, layoutAnchors] at hp
    obtain ⟨i, hi, rfl⟩ := List.mem_map.1 hp
    exact s2 i (List.mem_range.1 hi)

/-- Witness for C6 at a concrete one-phrase list. -/
theorem C6_layout_witness :
    (darkSunsetAnchors [("I am enough").toList]).length = 1 ∧
    (swipeableAnchors [("I am enough").toList]).length = 1 :=
  ⟨by
    have h := C6_layout [("I am enough").toList] (by decide)
    simpa using h.1,
   by
    have h := C6_layout [("I am enough").toList] (by decide)
    simpa using h.2.1⟩

/-! Caption builders: phrase containment and hashtag-block occurrence. -/

theorem mem_pyStrip {c : Char} {s : List Char} (h : c ∈ pyStrip s) : c ∈ s := by
  unfold pyStrip at h
  rw [List.mem_reverse] at h
  have h2 := (List.dropWhile_sublist _).subset h
  rw [List.mem_reverse] at h2
  exact (List.dropWhile_sublist _).subset h2

theorem infix_bulletLines : ∀ (affs : List (List Char)) (p : List Char), p ∈ affs →
    p <:+: bulletLines affs := by
  intro affs
  induction affs with
  | nil => intro p hp; simp at hp
  | cons a rest ih =>
    intro p hp
    rcases List.mem_cons.1 hp with rfl | hp2
    · cases rest with
      | nil => exact ⟨("• ").toList, [], by simp [bulletLines]⟩
      | cons b t =>
        exact ⟨("• ").toList, '\n' :: bulletLines (b :: t), by simp [bulletLines]⟩
    · cases rest with
      | nil => simp at hp2
      | cons b t =>
        have hsub := ih p hp2
        have hsuf : bulletLines (b :: t) <:+ bulletLines (a :: b :: t) := by
          show bulletLines (b :: t) <:+ ("• ").toList ++ a ++ '\n' :: bulletLines (b :: t)

          exact (List.suffix_cons '\n' _).trans
            ((List.suffix_append _ _).trans (by rw [List.append_assoc]))
        exact hsub.trans hsuf.isInfix

theorem hash_not_in_bulletLines : ∀ (affs : List (List Char)), (∀ p ∈ affs, '#' ∉ p) →
    '#' ∉ bulletLines affs := by
  intro affs
  induction affs with
  | nil => intro _ h; simp [bulletLines] at h
  | cons a rest ih =>
    intro hp h
    cases rest with
    | nil =>
      rw [bulletLines] at h
      rcases List.mem_append.1 h with h2 | h2
      · simp at h2
      · exact hp a (by simp) h2
    | cons b t =>
      rw [bulletLines] at h
      rcases List.mem_append.1 h with h2 | h2
      · rcases List.mem_append.1 h2 with h3 | h3
        · simp at h3
        · exact hp a (by simp) h3
      · rcases List.mem_cons.1 h2 with h3 | h3
        · simp at h3
        · exact ih (fun q hq => hp q (by simp [hq])) h3

/-- In a string of the shape `body ++ (block ++ tail)` where `block`
starts with a character absent from `body`, is longer than `tail`, and
has no short border (no nontrivial prefix of it equal to the
corresponding suffix, up to `tail`-length shifts), the block occurs as a
substring at exactly one position: right after `body`. -/
theorem hashtag_once_general (body block tail : List Char)
    (hhead : block.head? = some '#') (hbody : '#' ∉ body)
    (htail : tail.length < block.length)
    (hborder : ∀ j, 0 < j → j ≤ tail.length →
      ¬(block.take (block.length - j) = block.drop j)) :
    ∃! i : ℕ, block <+: (body ++ (block ++ tail)).drop i := by
  obtain ⟨c, bs, rfl⟩ : ∃ c bs, block = c :: bs := by
    cases block with
    | nil => simp at hhead
    | cons c bs => exact ⟨c, bs, rfl⟩
  have hc : c = '#' := by simpa using hhead
  refine ⟨body.length, ?_, ?_⟩
  · show (c :: bs) <+: (body ++ ((c :: bs) ++ tail)).drop body.length
    rw [List.drop_left]
    exact List.prefix_append _ _
  · intro j hj
    have hlenle := hj.length_le
    rw [List.length_drop, List.length_append, List.length_append] at hlenle
    rcases Nat.lt_trichotomy j body.length with hlt | heq | hgt
    · exfalso
      have hdropb : (body ++ ((c :: bs) ++ tail)).drop j =
          body.drop j ++ ((c :: bs) ++ tail) := by
        rw [List.drop_append_eq_append_drop, Nat.sub_eq_zero_of_le (le_of_lt hlt),
          List.drop_zero]
      rw [hdropb] at hj
      obtain ⟨d, ds, hd⟩ : ∃ d ds, body.drop j = d :: ds := by
        cases hbd : body.drop j with
        | nil =>
          rw [List.drop_eq_nil_iff] at hbd
          omega
        | cons d ds => exact ⟨d, ds, rfl⟩
      rw [hd] at hj
      obtain ⟨t2, ht⟩ := hj
      rw [List.cons_append, List.cons_append] at ht
      have hcd : c = d := (List.cons_eq_cons.1 ht).1
      have hdmem : d ∈ body := List.drop_subset j body (hd ▸ List.mem_cons_self d ds)
      exact hbody (hc ▸ hcd ▸ hdmem)
    · exact heq
    · exfalso
      have hk0 : 0 < j - body.length := by omega
      have hkle : j - body.length ≤ tail.length := by omega
      have hklt : j - body.length < (c :: bs).length := by omega
      have hdrop : (body ++ ((c :: bs) ++ tail)).drop j =
          (c :: bs).drop (j - body.length) ++ tail := by
        rw [List.drop_append_eq_append_drop, List.drop_eq_nil_of_le (by omega),
          List.nil_append, List.drop_append_eq_append_drop,
          Nat.sub_eq_zero_of_le (by omega : j - body.length ≤ (c :: bs).length),
          List.drop_zero]
      rw [hdrop] at hj
      obtain ⟨t2, ht⟩ := hj
      have htake : (c :: bs).take ((c :: bs).length - (j - body.length)) =
          (c :: bs).drop (j - body.length) := by
        have h1 : ((c :: bs) ++ t2).take ((c :: bs).length - (j - body.length)) =
            (c :: bs).take ((c :: bs).length - (j - body.length)) := by
          rw [List.take_append_eq_append_take,
            Nat.sub_eq_zero_of_le (by omega : (c :: bs).length - (j - body.length) ≤ (c :: bs).length),
            List.take_zero, List.append_nil]
        have h2 : ((c :: bs).drop (j - body.length) ++ tail).take
            ((c :: bs).length - (j - body.length)) = (c :: bs).drop (j - body.length) := by
          have hlen2 : ((c :: bs).drop (j - body.length)).length =
              (c :: bs).length - (j - body.length) := by rw [List.length_drop]
          rw [← hlen2, List.take_left]
        rw [← h1, ht, h2]
      exact hborder (j - body.length) hk0 hkle htake

/-- C7 counterexample: the `darkSunset`/`swipeable` caption builder's
fallback path returns a fixed string; for the builder's own fallback
affirmation set, the phrase `I trust my journey` is in the set but is not
a substring of the fallback caption output. -/
theorem C7_counterexample :
    dsGetCaption (Except.error ()) (("Joy").toList) = dsFallbackCaption ∧
    ("I trust my journey").toList ∈ dsFallbackAffirmations ∧
    ¬(("I trust my journey").toList <:+: dsFallbackCaption) := by
  refine ⟨rfl, by decide, by decide⟩

/-- C7 (amended): the `post_affirmation_video.py` caption builder's
output contains, verbatim, every phrase of the set on both the
AI-caption and the fallback path, and — provided neither the AI caption
nor any phrase contains the character `#` — contains the fixed hashtag
block exactly once, appended at the end.  The
`generate_darkSunset_5sec.py` / `generate_swipeable_post.py` builder
appends its standard hashtag block exactly once (when the AI caption is
`#`-free and the theme hashtag is shorter than the block), but does not
insert the phrases into the caption at all; its fallback output is a
fixed string, independent of the affirmation set. -/
theorem C7_caption_contents :
    (∀ (r : Except Unit (List Char)) (affs : List (List Char)) (p : List Char), p ∈ affs →
      p <:+: pavGetCaption r affs) ∧
    (∀ (r : Except Unit (List Char)) (affs : List (List Char)),
      (∀ p ∈ affs, '#' ∉ p) → (∀ c, r = Except.ok c → '#' ∉ c) →
      (∃! i : ℕ, pavHashtags <+: (pavGetCaption r affs).drop i) ∧
      pavHashtags <:+ pavGetCaption r affs) ∧
    (∀ (ai theme : List Char), '#' ∉ ai → (removeDashes theme).length ≤ 60 →
      ∃! i : ℕ, dsStdHashtags <+: (dsGetCaption (Except.ok ai) theme).drop i) ∧
    (∀ theme : List Char, dsGetCaption (Except.error ()) theme = dsFallbackCaption) ∧
    (∃! i : ℕ, dsStdHashtags <+: dsFallbackCaption.drop i) := by
  have hborder62 : ∀ j < 63, 0 < j →
      ¬(dsStdHashtags.take (dsStdHashtags.length - j) = dsStdHashtags.drop j) := by decide
  refine ⟨?_, ?_, ?_, fun _ => rfl, ?_⟩
  · intro r affs p hp
    have h1 := infix_bulletLines affs p hp
    have h2 : bulletLines affs <:+: pavGetCaption r affs := by
      unfold pavGetCaption
      exact ⟨pavGenerateAiCaption r ++ ("\n\n").toList,
        ("\n\n").toList ++ pavHashtags, by simp [List.append_assoc]⟩
    exact h1.trans h2
  · intro r affs hap hai
    have hbody : '#' ∉ pavGenerateAiCaption r ++ ("\n\n").toList ++ bulletLines affs
        ++ ("\n\n").toList := by
      intro hmem
      rcases List.mem_append.1 hmem with h2 | h2
      · rcases List.mem_append.1 h2 with h3 | h3
        · rcases List.mem_append.1 h3 with h4 | h4
          · rcases r with e | cont
            · revert h4; simp [pavGenerateAiCaption]; decide
            · exact hai cont rfl (mem_pyStrip (by simpa [pavGenerateAiCaption] using h4))
          · simp at h4
        · exact hash_not_in_bulletLines affs hap h3
      · simp at h2
    have hshape : pavGetCaption r affs =
        (pavGenerateAiCaption r ++ ("\n\n").toList ++ bulletLines affs ++ ("\n\n").toList)
          ++ (pavHashtags ++ []) := by
      simp [pavGetCaption, List.append_assoc]
    constructor
    · rw [hshape]
      exact hashtag_once_general _ pavHashtags [] (by decide) hbody (by decide)
        (fun j hj0 hjle => by simp at hjle; omega)
    · unfold pavGetCaption
      exact ⟨pavGenerateAiCaption r ++ ("\n\n").toList ++ bulletLines affs
        ++ ("\n\n").toList, by simp [List.append_assoc]⟩
  · intro ai theme h hlen
    have h62 : 62 < dsStdHashtags.length := by decide
    have hshape : dsGetCaption (Except.ok ai) theme =
        (pyStrip ai ++ ("\n\n").toList)
          ++ (dsStdHashtags ++ ('\n' :: '#' :: removeDashes theme)) := by
      simp [dsGetCaption, List.append_assoc]
    have hbody : '#' ∉ pyStrip ai ++ ("\n\n").toList := by
      intro hmem
      rcases List.mem_append.1 hmem with h2 | h2
      · exact h (mem_pyStrip h2)
      · simp at h2
    rw [hshape]
    refine hashtag_once_general _ dsStdHashtags _ (by decide) hbody ?_ ?_
    · simp only [List.length_cons]
      omega
    · intro j hj0 hjle
      simp only [List.length_cons] at hjle
      exact hborder62 j (by omega) hj0
  · have hshape : dsFallbackCaption =
        ("Start your day with positive affirmations! 🌟\n\n").toList
          ++ (dsStdHashtags ++ []) := by
      simp [dsFallbackCaption]
    rw [hshape]
    exact hashtag_once_general _ dsStdHashtags [] (by decide) (by decide) (by decide)
      (fun j hj0 hjle => by simp at hjle; omega)

/-- Witness for C7 (amended) at the concrete fallback path and fallback
affirmation set. -/
theorem C7_caption_contents_witness :
    (("I am enough").toList <:+:
      pavGetCaption (Except.error ()) dsFallbackAffirmations) ∧
    (∃! i : ℕ, pavHashtags <+:
      (pavGetCaption (Except.error ()) dsFallbackAffirmations).drop i) ∧
    (∃! i : ℕ, dsStdHashtags <+:
      (dsGetCaption (Except.ok (("Nice day").toList)) (("Self-Love").toList)).drop i) := by
  refine ⟨C7_caption_contents.1 (Except.error ()) dsFallbackAffirmations
      (("I am enough").toList) (by decide), ?_, ?_⟩
  · exact (C7_caption_contents.2.1 (Except.error ()) dsFallbackAffirmations
      (by decide) (fun c hc => by cases hc)).1
  · exact C7_caption_contents.2.2.1 (("Nice day").toList) (("Self-Love").toList)
      (by decide) (by decide)

/-- C8 counterexample: when the affirmation-generation call raises, the
Content Generator of `generate_affirmation_video.py` does not return a
hardcoded phrase list — it propagates the exception to its caller. -/
theorem C8_counterexample :
    gavGenerateAffirmationsAndCaption (Except.ok (("Growth").toList))
      (Except.error (PyExn.other (("boom").toList))) (Except.ok (("cap").toList)) =
      Except.error (PyExn.other (("boom").toList)) := rfl

/-- C8 (amended): `generate_themed_affirmations` of
`generate_darkSunset_5sec.py` returns the fixed 5-phrase fallback list on
any exception from the text-generation capability; but
`generate_affirmations_and_caption` of `generate_affirmation_video.py`
has no handler, so a text-generation exception propagates out of the
generator (its `main`, and the `/generate` route, catch it and abort the
run rather than falling back). -/
theorem C8_generator_fallback :
    (∀ e : PyExn, dsGenerateThemedAffirmations (Except.error e) = dsFallbackAffirmations) ∧
    dsFallbackAffirmations.length = 5 ∧
    (∀ (t : List Char) (e : PyExn) (capR : Except PyExn (List Char)),
      gavGenerateAffirmationsAndCaption (Except.ok t) (Except.error e) capR =
        Except.error e) :=
  ⟨fun _ => rfl, rfl, fun _ _ _ => rfl⟩

/-- C9: as written, every POST to `/generate` returns HTTP 500 with an
error body.  If a pipeline stage raises, its exception becomes the 500
message (the error half of the claim); and when content generation and
video creation both succeed, the handler still raises
`NameError: name datetime is not defined` at the `output_path`
f-string — `app.py` never imports `datetime` — so the documented 200
success response is unreachable. -/
theorem C9_app_generate_post :
    (∀ env : AppEnv, (appGeneratePost env).1 = 500 ∧
      ∃ e, (appGeneratePost env).2 = AppBody.error e) ∧
    (∀ (e : PyExn) (gen : Except PyExn Unit) (res : (List Char) × List (List Char) × List Char),
      appGeneratePost ⟨Except.error e, gen⟩ = (500, AppBody.error e) ∧
      appGeneratePost ⟨Except.ok res, Except.error e⟩ = (500, AppBody.error e) ∧
      appGeneratePost ⟨Except.ok res, Except.ok ()⟩ =
        (500, AppBody.error (PyExn.nameError (("datetime").toList)))) := by
  constructor
  · intro env
    rcases env with ⟨gen, cv⟩
    rcases gen with e | res
    · exact ⟨rfl, e, rfl⟩
    · rcases cv with e | u
      · exact ⟨rfl, e, rfl⟩
      · exact ⟨rfl, PyExn.nameError (("datetime").toList), rfl⟩
  · exact fun e gen res => ⟨rfl, rfl, rfl⟩

/-- C10: the staged-asset public URL is a pure function of the bucket
(and, in the `generate_affirmation_video.py` variant, the configured
region) and the local file's basename; the S3 object key is exactly the
basename, with no uniqueness suffix, so two uploads of files with the
same basename to the same bucket return the identical URL and the second
upload silently overwrites the first object. -/
theorem C10_s3_staging (bucket region b1 b2 p1 p2 : List Char)
    (store : List Char → Option (List Char)) (h : basename p1 = basename p2) :
    s3ObjectKey p1 = basename p1 ∧
    s3PublicUrl bucket p1 = s3PublicUrl bucket p2 ∧
    s3PublicUrlRegion bucket region p1 = s3PublicUrlRegion bucket region p2 ∧
    (uploadToS3 store bucket p1 b1).2 = (uploadToS3 store bucket p2 b2).2 ∧
    (uploadToS3 (uploadToS3 store bucket p1 b1).1 bucket p2 b2).1 (s3ObjectKey p1) =
      some b2 := by
  refine ⟨rfl, ?_, ?_, ?_, ?_⟩
  · simp [s3PublicUrl, h]
  · simp [s3PublicUrlRegion, h]
  · simp [uploadToS3, s3PublicUrl, h]
  · simp [uploadToS3, s3Put, s3ObjectKey, h]

/-- Witness for C10 at two concrete paths sharing the basename
`video.mp4`. -/
theorem C10_s3_staging_witness :
    (uploadToS3 (fun _ => none) (("bkt").toList) (("output/video.mp4").toList)
        (("blob1").toList)).2 =
      (uploadToS3 (fun _ => none) (("bkt").toList) (("tmp/video.mp4").toList)
        (("blob2").toList)).2 ∧
    (uploadToS3 (uploadToS3 (fun _ => none) (("bkt").toList) (("output/video.mp4").toList)
          (("blob1").toList)).1 (("bkt").toList) (("tmp/video.mp4").toList)
        (("blob2").toList)).1 (s3ObjectKey (("output/video.mp4").toList)) =
      some (("blob2").toList) := by
  have h := C10_s3_staging (("bkt").toList) (("us-east-1").toList) (("blob1").toList)
    (("blob2").toList) (("output/video.mp4").toList) (("tmp/video.mp4").toList)
    (fun _ => none) (by decide)
  exact ⟨h.2.2.2.1, h.2.2.2.2⟩

end AffirmationPosting
